import Mathlib

/-!
Verification of the JianpuRender block-segmentation engine and pitch mapper.

The definitions below are a shallow embedding of the TypeScript sources
(src/jianpu_block.ts, src/measure_info.ts, src/jianpu_info.ts, the JianpuModel
in src/unnamed/part_004 and the constants in model_constants).  JavaScript
floating point numbers are modelled by exact rationals; JavaScript integer
values by Lean integers.  Mutation is modelled by explicit state passing: tied
notes live in an arena (a list of notes addressed by index), and functions
that mutate an object in place return the updated copy.
-/

set_option maxRecDepth 100000
set_option maxHeartbeats 2000000

/-- The 1e-6 tolerance used throughout the sources. -/
def epsTol : ℚ := 1/1000000

/-- Embeds isSafeZero from jianpu_block.ts: |n| < 1e-6. -/
def isSafeZero (x : ℚ) : Bool := decide (|x| < epsTol)

/-- JavaScript Math.floor on a rational (computable form). -/
def jsFloor (x : ℚ) : ℤ := Rat.floor x

/-- JavaScript Math.round: round half toward positive infinity. -/
def jsRound (x : ℚ) : ℤ := jsFloor (x + 1/2)

/-- JavaScript remainder operator on integers: sign follows the dividend. -/
def jsRem (a b : ℤ) : ℤ := if 0 ≤ a then a % b else -((-a) % b)

theorem jsFloor_eq_floor (x : ℚ) : jsFloor x = ⌊x⌋ := by
  rw [jsFloor, Rat.floor_def', Rat.floor_def]

theorem jsRound_eq_floor (x : ℚ) : jsRound x = ⌊x + 1/2⌋ := by
  rw [jsRound, jsFloor_eq_floor]

/-- Result record of mapMidiToJianpu (part_004): number 1-7, octave dots,
accidental (0 none, 1 sharp, 2 flat). -/
structure JianpuPitch where
  jianpuNumber : ℤ
  octaveDot : ℤ
  accidental : ℤ
deriving DecidableEq, Repr

/-- Embeds MAJOR_SCALE_INTERVALS from model_constants: the partial map from
diatonic semitone intervals to scale degrees. -/
def scaleLookup (i : ℤ) : Option ℤ :=
  if i = 0 then some 1
  else if i = 2 then some 2
  else if i = 4 then some 3
  else if i = 5 then some 4
  else if i = 7 then some 5
  else if i = 9 then some 6
  else if i = 11 then some 7
  else none

/-- Embeds the tonicMidiRef computation of mapMidiToJianpu (part_004 lines
230-236): middle C plus the key pitch class, dropped an octave when the pitch
class is above C. -/
def tonicMidiRefOf (key : ℤ) : ℤ :=
  let keyPitchClass := jsRem key 12
  if keyPitchClass > 0 then 60 + keyPitchClass - 12 else 60 + keyPitchClass

/-- Embeds the interval computation of mapMidiToJianpu (part_004 lines
238-244): octave-adjust the tonic toward the pitch by JS rounding, then take
the JS remainder of the offset plus 12 by 12. -/
def jianpuIntervalOf (midiPitch key : ℤ) : ℤ :=
  let tonicMidiRef := tonicMidiRefOf key
  let octaveOffsetForIntervalCalc := jsRound ((midiPitch - tonicMidiRef : ℚ) / 12)
  let tonicMidi := tonicMidiRef + octaveOffsetForIntervalCalc * 12
  jsRem (midiPitch - tonicMidi + 12) 12

/-- Embeds the degree/accidental dataflow of mapMidiToJianpu (part_004 lines
246-314): the diatonic lookup, the chromatic preference switch with its
default fallback, and the final defined-ness check. -/
def degAccOf (interval : ℤ) : ℤ × ℤ :=
  let degAcc : Option ℤ × ℤ :=
    match scaleLookup interval with
    | some d => (some d, 0)
    | none =>
      if interval = 1 then (scaleLookup 0, 1)
      else if interval = 3 then (scaleLookup 4, 2)
      else if interval = 6 then (scaleLookup 5, 1)
      else if interval = 8 then (scaleLookup 9, 2)
      else if interval = 10 then (scaleLookup 11, 2)
      else
        let lowerIntervalFallback := jsRem (interval - 1 + 12) 12
        let upperIntervalFallback := jsRem (interval + 1 + 12) 12
        match scaleLookup lowerIntervalFallback, scaleLookup upperIntervalFallback with
        | some d, _ => (some d, 1)
        | none, some d => (some d, 2)
        | none, none => (some 1, 1)
  match degAcc.1 with
  | some d => (d, degAcc.2)
  | none => (1, 1)

/-- Embeds mapMidiToJianpu from part_004: maps a MIDI pitch and key tonic to
the jianpu degree, octave dot count and accidental. -/
def mapMidiToJianpu (midiPitch key : ℤ) : JianpuPitch :=
  let tonicMidiRef := tonicMidiRefOf key
  let interval := jianpuIntervalOf midiPitch key
  let da := degAccOf interval
  { jianpuNumber := da.1
    octaveDot := jsFloor ((midiPitch - tonicMidiRef : ℚ) / 12)
    accidental := da.2 }

theorem jsRem_of_nonneg (a b : ℤ) (h : 0 ≤ a) : jsRem a b = a % b := by
  simp [jsRem, h]

theorem jianpuIntervalOf_eq_emod (p k : ℤ) :
    jianpuIntervalOf p k = (p - tonicMidiRefOf k) % 12 := by
  unfold jianpuIntervalOf
  set ref := tonicMidiRefOf k with href
  set d : ℤ := p - ref with hd
  set o : ℤ := jsRound ((p - ref : ℚ) / 12) with ho
  have ho2 : o = ⌊(p - ref : ℚ) / 12 + 1/2⌋ := by rw [ho, jsRound_eq_floor]
  have h1 : (o : ℚ) ≤ (p - ref : ℚ) / 12 + 1/2 := by
    rw [ho2]; exact Int.floor_le _
  have h2 : (p - ref : ℚ) / 12 + 1/2 < (o : ℚ) + 1 := by
    rw [ho2]; exact Int.lt_floor_add_one _
  have hb1 : 12 * o - 6 ≤ d := by
    have : (12 * o - 6 : ℚ) ≤ (d : ℚ) := by
      have hcast : ((p : ℚ) - (ref : ℚ)) = (d : ℚ) := by push_cast [hd]; ring
      rw [hcast] at h1 h2
      linarith
    exact_mod_cast this
  have hb2 : d < 12 * o + 6 := by
    have : (d : ℚ) < (12 * o + 6 : ℚ) := by
      have hcast : ((p : ℚ) - (ref : ℚ)) = (d : ℚ) := by push_cast [hd]; ring
      rw [hcast] at h1 h2
      linarith
    exact_mod_cast this
  show jsRem (p - (ref + o * 12) + 12) 12 = d % 12
  have harg : p - (ref + o * 12) + 12 = d - 12 * o + 12 := by rw [hd]; ring
  rw [harg, jsRem_of_nonneg _ _ (by omega)]
  omega

/-- The degree the spec's preference table assigns to each semitone interval
from the tonic (diatonic intervals map to degrees 1-7; chromatic intervals 1
and 6 raise the lower degree, 3, 8 and 10 lower the upper degree). -/
def claimDegreeOf (i : ℤ) : ℤ :=
  if i = 0 then 1 else if i = 2 then 2 else if i = 4 then 3
  else if i = 5 then 4 else if i = 7 then 5 else if i = 9 then 6
  else if i = 11 then 7
  else if i = 1 then 1 else if i = 6 then 4
  else if i = 3 then 3 else if i = 8 then 6 else if i = 10 then 7 else 0

/-- The accidental the spec's preference table assigns to each semitone
interval: none on diatonic intervals, sharp on 1 and 6, flat on 3, 8 and 10. -/
def claimAccidentalOf (i : ℤ) : ℤ :=
  if i = 0 ∨ i = 2 ∨ i = 4 ∨ i = 5 ∨ i = 7 ∨ i = 9 ∨ i = 11 then 0
  else if i = 1 ∨ i = 6 then 1
  else if i = 3 ∨ i = 8 ∨ i = 10 then 2 else 0

/-- C4: for every integer MIDI pitch and key 0..11, with i the semitone
interval from the octave-adjusted tonic, diatonic intervals map to degrees
1-7 with no accidental and the chromatic intervals resolve as 1 to 1 sharp,
6 to 4 sharp, 3 to 3 flat, 8 to 6 flat and 10 to 7 flat. -/
theorem mapMidiToJianpu_matches_preference_table (p k : ℤ)
    (hk0 : 0 ≤ k) (hk1 : k ≤ 11) :
    (mapMidiToJianpu p k).jianpuNumber = claimDegreeOf (jianpuIntervalOf p k) ∧
    (mapMidiToJianpu p k).accidental = claimAccidentalOf (jianpuIntervalOf p k) := by
  have hr := jianpuIntervalOf_eq_emod p k
  have h0 : 0 ≤ (p - tonicMidiRefOf k) % 12 := Int.emod_nonneg _ (by norm_num)
  have h12 : (p - tonicMidiRefOf k) % 12 < 12 := Int.emod_lt_of_pos _ (by norm_num)
  have hcases : jianpuIntervalOf p k = 0 ∨ jianpuIntervalOf p k = 1 ∨
      jianpuIntervalOf p k = 2 ∨ jianpuIntervalOf p k = 3 ∨
      jianpuIntervalOf p k = 4 ∨ jianpuIntervalOf p k = 5 ∨
      jianpuIntervalOf p k = 6 ∨ jianpuIntervalOf p k = 7 ∨
      jianpuIntervalOf p k = 8 ∨ jianpuIntervalOf p k = 9 ∨
      jianpuIntervalOf p k = 10 ∨ jianpuIntervalOf p k = 11 := by omega
  rcases hcases with h | h | h | h | h | h | h | h | h | h | h | h <;>
    simp only [mapMidiToJianpu, h] <;> exact (by decide)

/-- C4 witness at pitch 61 and key 0. -/
theorem mapMidiToJianpu_matches_preference_table_witness :
    (0 : ℤ) ≤ 0 ∧ (0 : ℤ) ≤ 11 ∧
    ((mapMidiToJianpu 61 0).jianpuNumber = claimDegreeOf (jianpuIntervalOf 61 0) ∧
     (mapMidiToJianpu 61 0).accidental = claimAccidentalOf (jianpuIntervalOf 61 0)) :=
  ⟨by decide, by decide,
    mapMidiToJianpu_matches_preference_table 61 0 (by decide) (by decide)⟩

/-- C5 counterexample: at key 0, pitch 63 (interval 3 above the tonic) is
spelled as degree 3 with a flat by the code, not degree 2 with a sharp as the
claimed all-sharp sequence demands. -/
theorem chromatic_sequence_not_all_sharps :
    (mapMidiToJianpu 63 0).jianpuNumber = 3 ∧
    (mapMidiToJianpu 63 0).accidental = 2 ∧
    ¬((mapMidiToJianpu 63 0).jianpuNumber = 2 ∧
      (mapMidiToJianpu 63 0).accidental = 1) := by
  with_unfolding_all decide

/-- C5 amended: with key 0 the pitches 60..71 yield the degree/accidental
sequence 1, 1 sharp, 2, 3 flat, 3, 4, 4 sharp, 5, 6 flat, 6, 7 flat, 7:
chromatic pitches are spelled per the preference table (sharps on intervals
1 and 6, flats on 3, 8 and 10), not all as sharps on the lower degree. -/
theorem chromatic_sequence_key0 :
    (List.range 12).map
      (fun j => ((mapMidiToJianpu (60 + (j : ℤ)) 0).jianpuNumber,
                 (mapMidiToJianpu (60 + (j : ℤ)) 0).accidental)) =
    [(1, 0), (1, 1), (2, 0), (3, 2), (3, 0), (4, 0),
     (4, 1), (5, 0), (6, 2), (6, 0), (7, 2), (7, 0)] := by
  with_unfolding_all decide

/-- C6: raising the pitch by an octave keeps the degree and accidental and
increments the octave dot count by one. -/
theorem mapMidiToJianpu_octave_shift (p k : ℤ) (hk0 : 0 ≤ k) (hk1 : k ≤ 11) :
    (mapMidiToJianpu (p + 12) k).jianpuNumber = (mapMidiToJianpu p k).jianpuNumber ∧
    (mapMidiToJianpu (p + 12) k).accidental = (mapMidiToJianpu p k).accidental ∧
    (mapMidiToJianpu (p + 12) k).octaveDot = (mapMidiToJianpu p k).octaveDot + 1 := by
  have hint : jianpuIntervalOf (p + 12) k = jianpuIntervalOf p k := by
    rw [jianpuIntervalOf_eq_emod, jianpuIntervalOf_eq_emod]; omega
  refine ⟨?_, ?_, ?_⟩ <;> simp only [mapMidiToJianpu, hint]
  · have harg : (((p + 12 : ℤ) : ℚ) - (tonicMidiRefOf k : ℚ)) / 12 =
        ((p : ℚ) - (tonicMidiRefOf k : ℚ)) / 12 + 1 := by push_cast; ring
    rw [jsFloor_eq_floor, jsFloor_eq_floor, harg, Int.floor_add_one]

/-- C6 witness at pitch 60 and key 0. -/
theorem mapMidiToJianpu_octave_shift_witness :
    (0 : ℤ) ≤ 0 ∧ (0 : ℤ) ≤ 11 ∧
    ((mapMidiToJianpu (60 + 12) 0).jianpuNumber = (mapMidiToJianpu 60 0).jianpuNumber ∧
     (mapMidiToJianpu (60 + 12) 0).accidental = (mapMidiToJianpu 60 0).accidental ∧
     (mapMidiToJianpu (60 + 12) 0).octaveDot = (mapMidiToJianpu 60 0).octaveDot + 1) :=
  ⟨by decide, by decide, mapMidiToJianpu_octave_shift 60 0 (by decide) (by decide)⟩

/-- C7 counterexample: for key 1 the occurrence of the tonic pitch class
nearest middle C is 61 (one semitone away, against eleven for 49), yet the
code gives pitch 61 an octave dot of 1 and pitch 49 an octave dot of 0, so
the reference pitch at which the dot vanishes is 49, not the nearest
occurrence 61. -/
theorem tonicRef_not_nearest_middleC :
    (mapMidiToJianpu 61 1).octaveDot = 1 ∧
    (mapMidiToJianpu 49 1).octaveDot = 0 ∧
    ((61 : ℤ) - 60).natAbs < ((49 : ℤ) - 60).natAbs := by
  with_unfolding_all decide

/-- C7 amended: for every key 0..11 the tonic reference pitch is the unique
occurrence of the tonic pitch class in the half-open octave (48, 60] - middle
C itself for key 0, otherwise below middle C - and for every pitch the
returned octave dot equals the floor of (pitch - reference) / 12. -/
theorem tonicRef_octave_at_or_below_middleC (k : ℤ) (hk0 : 0 ≤ k) (hk1 : k ≤ 11) :
    (jsRem (tonicMidiRefOf k) 12 = k ∧ 48 < tonicMidiRefOf k ∧ tonicMidiRefOf k ≤ 60) ∧
    ∀ p : ℤ, (mapMidiToJianpu p k).octaveDot =
      ⌊((p : ℚ) - (tonicMidiRefOf k : ℚ)) / 12⌋ := by
  constructor
  · have hk12 : jsRem k 12 = k := by rw [jsRem_of_nonneg _ _ hk0]; omega
    simp only [tonicMidiRefOf, hk12]
    split_ifs with h
    · rw [jsRem_of_nonneg _ _ (by omega)]
      omega
    · rw [jsRem_of_nonneg _ _ (by omega)]
      omega
  · intro p
    simp only [mapMidiToJianpu]
    exact jsFloor_eq_floor _

/-- C7 amended witness at key 7. -/
theorem tonicRef_octave_at_or_below_middleC_witness :
    (0 : ℤ) ≤ 7 ∧ (7 : ℤ) ≤ 11 ∧
    ((jsRem (tonicMidiRefOf 7) 12 = 7 ∧ 48 < tonicMidiRefOf 7 ∧ tonicMidiRefOf 7 ≤ 60) ∧
     ∀ p : ℤ, (mapMidiToJianpu p 7).octaveDot =
       ⌊((p : ℚ) - (tonicMidiRefOf 7 : ℚ)) / 12⌋) :=
  ⟨by decide, by decide, tonicRef_octave_at_or_below_middleC 7 (by decide) (by decide)⟩

/-- JavaScript Math.trunc on a rational: round toward zero. -/
def jsTrunc (x : ℚ) : ℤ := if x < 0 then -(jsFloor (-x)) else jsFloor x

/-- JavaScript x % 1 on a rational: x minus its truncation toward zero. -/
def jsFmodOne (x : ℚ) : ℚ := x - (jsTrunc x : ℚ)

/-- Stable insertion into a sorted list: the new element goes after every
element le-below-or-equal to it, as JS Array.sort (a, b) => a.start - b.start
keeps equal elements in input order. -/
def insertSorted {α : Type} (le : α → α → Bool) (x : α) : List α → List α
  | [] => [x]
  | y :: ys => if le y x then y :: insertSorted le x ys else x :: y :: ys

/-- Stable ascending sort by a boolean le, modelling JS Array.sort with a
numeric comparator. -/
def sortBy {α : Type} (le : α → α → Bool) (l : List α) : List α :=
  l.foldl (fun acc x => insertSorted le x acc) []

/-- Embeds MIN_RESOLUTION from model_constants: 1/16 quarter (a 64th note). -/
def MIN_RESOLUTION : ℚ := 1/16

/-- Embeds NoteInfo from jianpu_info.ts. -/
structure NoteInfo where
  start : ℚ
  length : ℚ
  pitch : ℤ
  intensity : ℤ
deriving DecidableEq, Repr

/-- Embeds TempoInfo from jianpu_info.ts. -/
structure TempoInfo where
  start : ℚ
  qpm : ℚ
deriving DecidableEq, Repr

/-- Embeds KeySignatureInfo from jianpu_info.ts. -/
structure KeySignatureInfo where
  start : ℚ
  key : ℤ
deriving DecidableEq, Repr

/-- Embeds TimeSignatureInfo from jianpu_info.ts. -/
structure TimeSignatureInfo where
  start : ℚ
  numerator : ℚ
  denominator : ℚ
deriving DecidableEq, Repr

/-- Embeds DEFAULT_TEMPO (60 qpm at 0). -/
def DEFAULT_TEMPO : TempoInfo := ⟨0, 60⟩

/-- Embeds DEFAULT_KEY_SIGNATURE (C at 0). -/
def DEFAULT_KEY_SIGNATURE : KeySignatureInfo := ⟨0, 0⟩

/-- Embeds DEFAULT_TIME_SIGNATURE (4/4 at 0). -/
def DEFAULT_TIME_SIGNATURE : TimeSignatureInfo := ⟨0, 4, 4⟩

/-- Embeds getMeasureLength from jianpu_info.ts. -/
def getMeasureLength (ts : TimeSignatureInfo) : ℚ := ts.numerator * (4 / ts.denominator)

/-- Embeds JianpuInfo from jianpu_info.ts. -/
structure JianpuInfo where
  notes : List NoteInfo
  tempos : List TempoInfo := []
  keySignatures : List KeySignatureInfo := []
  timeSignatures : List TimeSignatureInfo := []
deriving DecidableEq

/-- Embeds the JianpuNote interface of jianpu_block.ts.  The tiedFrom/tiedTo
object references of the source are modelled as indices into a note arena. -/
structure JNote where
  start : ℚ
  length : ℚ
  pitch : ℤ
  intensity : ℤ
  jianpuNumber : ℤ
  octaveDot : ℤ
  accidental : ℤ
  tiedFrom : Option ℕ := none
  tiedTo : Option ℕ := none
deriving DecidableEq, Repr

/-- The note arena: every JianpuNote object of a run, addressed by index. -/
abbrev Arena : Type := List JNote

/-- Embeds splitJianpuNote from jianpu_block.ts lines 61-91.  Mutation of the
input note and of its forward tie target become arena updates; the returned
index addresses the newly created second half. -/
def splitJianpuNote (a : Arena) (i : ℕ) (quarters : ℚ) : Option (Arena × ℕ) :=
  match a.get? i with
  | none => none
  | some jianpuNote =>
    let originalEnd := jianpuNote.start + jianpuNote.length
    if quarters ≤ jianpuNote.start ∨ originalEnd ≤ quarters ∨
        isSafeZero (originalEnd - quarters) then none
    else
      let remainLength := originalEnd - quarters
      let m := a.length
      let modified :=
        { jianpuNote with length := quarters - jianpuNote.start, tiedTo := some m }
      let splitted : JNote :=
        { start := quarters, length := remainLength, pitch := jianpuNote.pitch,
          intensity := jianpuNote.intensity, jianpuNumber := jianpuNote.jianpuNumber,
          octaveDot := jianpuNote.octaveDot, accidental := 0,
          tiedFrom := some i, tiedTo := jianpuNote.tiedTo }
      let a1 := (a.set i modified) ++ [splitted]
      let a2 := match jianpuNote.tiedTo with
        | some j =>
          match a1.get? j with
          | some nj => a1.set j { nj with tiedFrom := some m }
          | none => a1
        | none => a1
      some (a2, m)

/-- Embeds the JianpuBlock class fields of jianpu_block.ts.  Optional fields
that the source deletes or leaves unset are none. -/
structure JianpuBlock where
  start : ℚ := 0
  length : ℚ := 0
  notes : List ℕ := []
  measureNumber : ℚ := 1
  durationLines : Option ℕ := none
  augmentationDots : Option ℕ := none
  augmentationDash : Option Bool := none
  beatBegin : Option Bool := none
  beatEnd : Option Bool := none
  isTieStart : Option Bool := none
  isTieEnd : Option Bool := none
deriving DecidableEq, Repr

/-- JS truthiness of an optional boolean field. -/
def isTruthy : Option Bool → Bool
  | some true => true
  | _ => false

/-- Embeds JianpuBlock.addNote (jianpu_block.ts lines 155-209): first note
sets start and length, a note at a foreign start is ignored, a shorter
same-pitch duplicate replaces the held note with its ties relinked, and the
block length becomes the minimum note length. -/
def addNote (a : Arena) (b : JianpuBlock) (noteId : ℕ) : Arena × JianpuBlock × Bool :=
  match a.get? noteId with
  | none => (a, b, false)
  | some jianpuNote =>
    match b.notes with
    | [] =>
      (a, { b with start := jianpuNote.start, length := jianpuNote.length,
                   notes := [noteId] }, true)
    | _ :: _ =>
      if ¬ (isSafeZero (b.start - jianpuNote.start)) then (a, b, false)
      else
        let dup? := b.notes.findIdx? (fun oldId =>
          match a.get? oldId with
          | some old => decide (old.pitch = jianpuNote.pitch)
          | none => false)
        let afterDup : Arena × List ℕ × Bool × Bool :=
          match dup? with
          | some idx =>
            match (b.notes.get? idx).bind a.get? with
            | some old =>
              if jianpuNote.length < old.length then
                let n1 := { jianpuNote with tiedFrom := old.tiedFrom, tiedTo := old.tiedTo }
                let a1 := a.set noteId n1
                let a2 := match old.tiedFrom with
                  | some f => match a1.get? f with
                    | some nf => a1.set f { nf with tiedTo := some noteId }
                    | none => a1
                  | none => a1
                let a3 := match old.tiedTo with
                  | some t => match a2.get? t with
                    | some nt => a2.set t { nt with tiedFrom := some noteId }
                    | none => a2
                  | none => a2
                let oldId := (b.notes.get? idx).getD 0
                (a3, b.notes.map (fun id => if id = oldId then noteId else id), true, true)
              else (a, b.notes, true, false)
            | none => (a, b.notes, true, false)
          | none => (a, b.notes ++ [noteId], false, false)
        let a4 := afterDup.1
        let notes4 := afterDup.2.1
        let isDuplicate := afterDup.2.2.1
        let replacedDuplicate := afterDup.2.2.2
        let lengths := notes4.map (fun id => match a4.get? id with
          | some n => n.length
          | none => 0)
        let minLength := match lengths with
          | [] => b.length
          | x :: xs => xs.foldl min x
        (a4, { b with notes := notes4, length := minLength }, !isDuplicate || replacedDuplicate)

/-- Embeds the MeasureInfo chunk record of measure_info.ts. -/
structure MeasureChunk where
  start : ℚ
  measureNumber : ℚ
  measureLength : ℚ
  tempo : TempoInfo
  keySignature : KeySignatureInfo
  timeSignature : TimeSignatureInfo
  tempoChange : Bool := false
  keyChange : Bool := false
  timeChange : Bool := false
deriving DecidableEq, Repr

/-- The loop state of the MeasuresInfo constructor. -/
structure ChunkBuildState where
  tempoIndex : ℕ
  keyIndex : ℕ
  timeIndex : ℕ
  currentTempo : TempoInfo
  currentKeySignature : KeySignatureInfo
  currentTimeSignature : TimeSignatureInfo
  measureNumberAtCurrentTimeSignature : ℚ
  currentMeasureLength : ℚ
  timeOfLastTimeSigChange : ℚ
deriving DecidableEq

/-- One iteration of the MeasuresInfo constructor loop (measure_info.ts lines
87-145) at time k * MIN_RESOLUTION. -/
def chunkStep (info : JianpuInfo) (st : ChunkBuildState) (k : ℕ) :
    ChunkBuildState × MeasureChunk :=
  let quarters : ℚ := (k : ℚ) * MIN_RESOLUTION
  let timeSinceLastSigChange := quarters - st.timeOfLastTimeSigChange
  let measuresPassedSinceSigChange := timeSinceLastSigChange / st.currentMeasureLength
  let currentMeasureNumber :=
    st.measureNumberAtCurrentTimeSignature + measuresPassedSinceSigChange
  let chunk0 : MeasureChunk :=
    { start := quarters, measureNumber := currentMeasureNumber,
      measureLength := st.currentMeasureLength, tempo := st.currentTempo,
      keySignature := st.currentKeySignature, timeSignature := st.currentTimeSignature }
  let stepTempo : ChunkBuildState × MeasureChunk :=
    match info.tempos.get? st.tempoIndex with
    | some t =>
      if |t.start - quarters| < MIN_RESOLUTION / 2 then
        ({ st with tempoIndex := st.tempoIndex + 1, currentTempo := t },
         { chunk0 with tempo := t, tempoChange := true })
      else (st, chunk0)
    | none => (st, chunk0)
  let st1 := stepTempo.1
  let chunk1 := stepTempo.2
  let stepKey : ChunkBuildState × MeasureChunk :=
    match info.keySignatures.get? st1.keyIndex with
    | some ks =>
      if |ks.start - quarters| < MIN_RESOLUTION / 2 then
        ({ st1 with keyIndex := st1.keyIndex + 1, currentKeySignature := ks },
         { chunk1 with keySignature := ks, keyChange := true })
      else (st1, chunk1)
    | none => (st1, chunk1)
  let st2 := stepKey.1
  let chunk2 := stepKey.2
  match info.timeSignatures.get? st2.timeIndex with
  | some ts =>
    if |ts.start - quarters| < MIN_RESOLUTION / 2 then
      let timeAtChange := ts.start
      let timeSincePrevSigChange := timeAtChange - st2.timeOfLastTimeSigChange
      let mn0 := st2.measureNumberAtCurrentTimeSignature +
        timeSincePrevSigChange / st2.currentMeasureLength
      let mn := (jsRound (mn0 * 1000) : ℚ) / 1000
      let newMeasureLength := getMeasureLength ts
      ({ st2 with timeIndex := st2.timeIndex + 1, currentTimeSignature := ts,
                  measureNumberAtCurrentTimeSignature := mn,
                  currentMeasureLength := newMeasureLength,
                  timeOfLastTimeSigChange := quarters },
       { chunk2 with timeSignature := ts, measureLength := newMeasureLength,
                     measureNumber := mn, timeChange := true })
    else (st2, chunk2)
  | none => (st2, chunk2)

/-- Runs n iterations of the constructor loop starting at step k. -/
def chunkLoop (info : JianpuInfo) : ChunkBuildState → ℕ → ℕ → List MeasureChunk
  | _, _, 0 => []
  | st, k, n + 1 =>
    let r := chunkStep info st k
    r.2 :: chunkLoop info r.1 (k + 1) n

/-- Embeds the MeasuresInfo constructor (measure_info.ts lines 70-146): walk
time from 0 below lastQ in MIN_RESOLUTION steps recording a chunk each step.
Assumes the normalized info lists are nonempty, as the caller guarantees. -/
def buildChunks (info : JianpuInfo) (lastQ : ℚ) : List MeasureChunk :=
  let st0 : ChunkBuildState :=
    { tempoIndex := 0, keyIndex := 0, timeIndex := 0,
      currentTempo := info.tempos.headD DEFAULT_TEMPO,
      currentKeySignature := info.keySignatures.headD DEFAULT_KEY_SIGNATURE,
      currentTimeSignature := info.timeSignatures.headD DEFAULT_TIME_SIGNATURE,
      measureNumberAtCurrentTimeSignature := 1,
      currentMeasureLength := getMeasureLength (info.timeSignatures.headD DEFAULT_TIME_SIGNATURE),
      timeOfLastTimeSigChange := (info.timeSignatures.headD DEFAULT_TIME_SIGNATURE).start }
  let numSteps := (⌈lastQ / MIN_RESOLUTION⌉).toNat
  chunkLoop info st0 0 numSteps

/-- The MeasuresInfo object: the chunk list plus the allowDottedRests flag
(defaulted to true in measure_info.ts). -/
structure MeasuresCtx where
  measuresInfo : List MeasureChunk
  allowDottedRests : Bool := true
deriving DecidableEq

/-- Embeds MeasuresInfo.findIndex: clamp floor(start / MIN_RESOLUTION) into
the chunk index range. -/
def findIndex (mi : MeasuresCtx) (start : ℚ) : ℕ :=
  (max 0 (min ((mi.measuresInfo.length : ℤ) - 1) (jsFloor (start / MIN_RESOLUTION)))).toNat

/-- Embeds MeasuresInfo.measureNumberAtQ (measure_info.ts lines 181-189). -/
def measureNumberAtQ (mi : MeasuresCtx) (start : ℚ) : ℚ :=
  match mi.measuresInfo.get? (findIndex mi start) with
  | none => 1
  | some reference =>
    reference.measureNumber + (start - reference.start) / reference.measureLength
      + 1/1000000000

/-- Embeds MeasuresInfo.measureLengthAtQ (measure_info.ts lines 196-200). -/
def measureLengthAtQ (mi : MeasuresCtx) (start : ℚ) : ℚ :=
  match mi.measuresInfo.get? (findIndex mi start) with
  | none => getMeasureLength DEFAULT_TIME_SIGNATURE
  | some reference => reference.measureLength

/-- Embeds MeasuresInfo.timeSignatureAtQ in its onlyChanges = false form, the
only form the model uses (measure_info.ts lines 242-250). -/
def timeSignatureAtQ (mi : MeasuresCtx) (start : ℚ) : Option TimeSignatureInfo :=
  match mi.measuresInfo.get? (findIndex mi start) with
  | none => some DEFAULT_TIME_SIGNATURE
  | some reference => some reference.timeSignature

/-- Embeds MeasuresInfo.keySignatureAtQ in its onlyChanges = false form, the
only form the model uses (measure_info.ts lines 226-234). -/
def keySignatureAtQ (mi : MeasuresCtx) (start : ℚ) : ℤ :=
  match mi.measuresInfo.get? (findIndex mi start) with
  | none => DEFAULT_KEY_SIGNATURE.key
  | some reference => reference.keySignature.key

/-- Embeds JianpuBlock.split (jianpu_block.ts lines 220-286): guard the split
point, split every note crossing it into the new block, shorten the original
block and transfer the beatEnd / isTieEnd flags. -/
def blockSplit (mi : MeasuresCtx) (a : Arena) (b : JianpuBlock) (quarters : ℚ) :
    Option (Arena × JianpuBlock × JianpuBlock) :=
  let originalEnd := b.start + b.length
  if quarters ≤ b.start ∨ originalEnd ≤ quarters ∨ isSafeZero (originalEnd - quarters)
  then none
  else
    let remainLength := originalEnd - quarters
    let newBlockLength := quarters - b.start
    let splittedBlock0 : JianpuBlock :=
      { start := quarters, length := remainLength, notes := [],
        measureNumber := measureNumberAtQ mi quarters }
    let afterNotes : Arena × List ℕ :=
      b.notes.foldl (fun acc noteId =>
        match acc.1.get? noteId with
        | none => acc
        | some note =>
          let noteEnd := note.start + note.length
          if noteEnd > quarters + epsTol then
            match splitJianpuNote acc.1 noteId quarters with
            | some r => (r.1, acc.2 ++ [r.2])
            | none => acc
          else acc) (a, [])
    let afterAdds : Arena × JianpuBlock :=
      afterNotes.2.foldl (fun acc id =>
        let r := addNote acc.1 acc.2 id
        (r.1, r.2.1)) (afterNotes.1, splittedBlock0)
    let b1 : JianpuBlock :=
      { b with length := newBlockLength, durationLines := none,
               augmentationDots := none, augmentationDash := none }
    let tweaked : JianpuBlock × JianpuBlock :=
      if isTruthy b1.beatEnd then
        ({ b1 with beatEnd := none }, { afterAdds.2 with beatEnd := some true })
      else (b1, afterAdds.2)
    let tweaked2 : JianpuBlock × JianpuBlock :=
      if isTruthy tweaked.1.isTieEnd then
        ({ tweaked.1 with isTieEnd := none }, { tweaked.2 with isTieStart := some true })
      else tweaked
    some (afterAdds.1, tweaked2.1, tweaked2.2)

/-- Embeds JianpuBlock.splitToBeat (jianpu_block.ts lines 294-368): mark
beatBegin, split at the earliest of the next beat or measure end lying
strictly inside the block, mark beatEnd, and recompute the tie flags of both
parts from their notes. -/
def splitToBeat (mi : MeasuresCtx) (a : Arena) (b : JianpuBlock) :
    Arena × JianpuBlock × Option JianpuBlock :=
  match timeSignatureAtQ mi b.start with
  | none => (a, b, none)
  | some timeSignature =>
    let measureLength := measureLengthAtQ mi b.start
    let measureNum := measureNumberAtQ mi b.start
    let measureStart := b.start - (measureNum - (jsFloor measureNum : ℚ)) * measureLength
    let timeInMeasure := b.start - measureStart
    let beatLength := 4 / timeSignature.denominator
    let startBeatFraction := timeInMeasure / beatLength
    let bb := isSafeZero (startBeatFraction - (jsRound startBeatFraction : ℚ))
    let b0 := { b with beatBegin := some bb }
    let currentBeatNumber := jsFloor (startBeatFraction + epsTol)
    let nextBeatTimeInMeasure := ((currentBeatNumber : ℚ) + 1) * beatLength
    let nextBeatTimeAbsolute := measureStart + nextBeatTimeInMeasure
    let measureEndTime := measureStart + measureLength
    let blockEndTime := b.start + b.length
    let splitTime1 : Option ℚ :=
      if nextBeatTimeAbsolute < blockEndTime - epsTol ∧
         nextBeatTimeAbsolute > b.start + epsTol
      then some nextBeatTimeAbsolute else none
    let splitTime : Option ℚ :=
      if measureEndTime < blockEndTime - epsTol ∧ measureEndTime > b.start + epsTol
      then match splitTime1 with
        | none => some measureEndTime
        | some s => if measureEndTime < s then some measureEndTime else some s
      else splitTime1
    let afterSplit : Arena × JianpuBlock × Option JianpuBlock :=
      match splitTime with
      | some st =>
        match blockSplit mi a b0 st with
        | some (a1, bh, bt) => (a1, { bh with beatEnd := some true }, some bt)
        | none => (a, b0, none)
      | none =>
        let endBeatFraction := (timeInMeasure + b.length) / beatLength
        let be0 := isSafeZero (endBeatFraction - (jsRound endBeatFraction : ℚ))
        let be := if be0 then be0 else isSafeZero (blockEndTime - measureEndTime)
        (a, { b0 with beatEnd := some be }, none)
    let a1 := afterSplit.1
    let bh := afterSplit.2.1
    let obt := afterSplit.2.2
    let ts := bh.notes.any (fun id => ((a1.get? id).bind JNote.tiedFrom).isSome)
    let te := bh.notes.any (fun id => ((a1.get? id).bind JNote.tiedTo).isSome)
    let bh1 := { bh with isTieStart := some ts, isTieEnd := some te }
    match obt, splitTime with
    | some bt, some st =>
      let bts := bt.notes.any (fun id => ((a1.get? id).bind JNote.tiedFrom).isSome)
      let bte := bt.notes.any (fun id => ((a1.get? id).bind JNote.tiedTo).isSome)
      let bt1 := { bt with isTieStart := some bts, isTieEnd := some bte }
      let delEnd := bh1.notes.any (fun id =>
        match a1.get? id with
        | some n => n.tiedTo.isSome && decide (n.start + n.length > st)
        | none => false)
      let bh2 := if delEnd then { bh1 with isTieEnd := none } else bh1
      (a1, bh2, some bt1)
    | _, _ => (a1, bh1, obt)

/-- Embeds JianpuBlock.splitToStandardSymbol (jianpu_block.ts lines 478-549):
find the longest standard (optionally dotted) duration fitting the block,
split off any remainder, and force the head length to that duration. -/
def splitToStandardSymbol (mi : MeasuresCtx) (a : Arena) (b : JianpuBlock) :
    Arena × JianpuBlock × Option JianpuBlock :=
  let blockLength := b.length
  if isSafeZero blockLength ∨ blockLength < MIN_RESOLUTION - epsTol then (a, b, none)
  else
    let standardLengths : List ℚ :=
      if mi.allowDottedRests || !b.notes.isEmpty then
        [6, 4, 3, 2, 3/2, 1, 3/4, 1/2, 3/8, 1/4, 1/8, 1/16]
      else [4, 2, 1, 1/2, 1/4, 1/8, 1/16]
    let bestFit0 := (standardLengths.find? (fun l => decide (blockLength ≥ l - epsTol))).getD 0
    let bestFitLength := if isSafeZero bestFit0 then MIN_RESOLUTION else bestFit0
    if blockLength > bestFitLength + epsTol then
      match blockSplit mi a b (b.start + bestFitLength) with
      | some (a1, bh, bt) =>
        let bh1 := if bh.length ≠ bestFitLength then { bh with length := bestFitLength } else bh
        (a1, bh1, some bt)
      | none =>
        let bh1 := if b.length ≠ bestFitLength then { b with length := bestFitLength } else b
        (a, bh1, none)
    else
      (a, { b with length := bestFitLength }, none)

/-- The output collection: blocks keyed by exact start time in insertion
order, embedding the JS Map of jianpu_block.ts line 31. -/
abbrev JianpuBlockMap : Type := List (ℚ × JianpuBlock)

/-- JS Map.set: replace the entry with an exactly equal key, else append. -/
def mapSet (m : JianpuBlockMap) (k : ℚ) (v : JianpuBlock) : JianpuBlockMap :=
  if m.any (fun e => e.1 = k) then
    m.map (fun e => if e.1 = k then (k, v) else e)
  else m ++ [(k, v)]

/-- JS Map.get: the value at an exactly equal key. -/
def mapGet (m : JianpuBlockMap) (k : ℚ) : Option JianpuBlock :=
  (m.find? (fun e => e.1 = k)).map Prod.snd

/-- Embeds JianpuBlock.mergeToMap (jianpu_block.ts lines 557-570): merge the
block's notes into an existing block at exactly the same start, else insert
the block as a new entry. -/
def mergeToMap (a : Arena) (m : JianpuBlockMap) (b : JianpuBlock) :
    Arena × JianpuBlockMap :=
  match mapGet m b.start with
  | some existingBlock =>
    let merged : Arena × JianpuBlock :=
      b.notes.foldl (fun acc id =>
        let r := addNote acc.1 acc.2 id
        (r.1, r.2.1)) (a, existingBlock)
    let upd := if b.measureNumber ≠ 0 then { merged.2 with measureNumber := b.measureNumber }
               else merged.2
    (merged.1, mapSet m b.start upd)
  | none => (a, mapSet m b.start b)

/-- Embeds JianpuBlock.calculateRenderProperties (jianpu_block.ts lines
376-468): dotted symbol cases first (dotted half falls through), then the
duration-line ladder, then the tied continuation-dash rule.  Arena lookups
that the source cannot fail (object references) fall back to the state so
far. -/
def calculateRenderProperties (mi : MeasuresCtx) (a : Arena) (b : JianpuBlock) :
    JianpuBlock :=
  let b0 :=
    ({ b with durationLines := none, augmentationDots := none, augmentationDash := none })
  let blockLength := b.length
  if isSafeZero blockLength || decide (blockLength < 0) then b0
  else
    let dottedAllowed := mi.allowDottedRests || !b.notes.isEmpty
    if dottedAllowed && isSafeZero (blockLength - 3/2) then
      { b0 with augmentationDots := some 1 }
    else if dottedAllowed && isSafeZero (blockLength - 3/4) then
      { b0 with durationLines := some 1, augmentationDots := some 1 }
    else if dottedAllowed && isSafeZero (blockLength - 3/8) then
      { b0 with durationLines := some 2, augmentationDots := some 1 }
    else
      let b1 := if dottedAllowed && isSafeZero (blockLength - 3) then
          { b0 with augmentationDots := some 1 } else b0
      let lines : ℕ :=
        if blockLength ≥ 4 - epsTol then 0
        else if blockLength ≥ 2 - epsTol then 0
        else if blockLength ≥ 1 - epsTol then 0
        else if blockLength ≥ 1/2 - epsTol then 1
        else if blockLength ≥ 1/4 - epsTol then 2
        else if blockLength ≥ 1/8 - epsTol then 3
        else if blockLength ≥ 1/16 - epsTol then 4
        else 4
      let b2 := { b1 with durationLines := some lines, augmentationDash := some false }
      match b.notes with
      | [noteId] =>
        match a.get? noteId with
        | none => b2
        | some currentNote =>
          match timeSignatureAtQ mi b.start with
          | none => b2
          | some ts =>
            let beatLength := max (4 / ts.denominator) 1
            let isFirstBlock := decide (jsFmodOne b.measureNumber ≤ epsTol)
            match currentNote.tiedFrom with
            | none => b2
            | some f =>
              match a.get? f with
              | none => b2
              | some nf =>
                if !isFirstBlock && isSafeZero (nf.length - beatLength) &&
                   decide (nf.pitch = currentNote.pitch) &&
                   decide (currentNote.length ≥ 1) then
                  let validNextNote :=
                    match currentNote.tiedTo with
                    | some t =>
                      match a.get? t with
                      | none => false
                      | some nt =>
                        let nextNoteStart := currentNote.start + currentNote.length
                        let currentMeasure := jsFloor (measureNumberAtQ mi b.start)
                        let nextNoteMeasure := jsFloor (measureNumberAtQ mi nextNoteStart)
                        decide (currentMeasure = nextNoteMeasure) && decide (nt.length ≥ 1)
                    | none => true
                  if validNextNote then { b2 with augmentationDash := some true } else b2
                else b2
      | _ => b2

/-- Embeds JianpuModel.createJianpuNote (part_004 lines 204-214). -/
def createJianpuNote (note : NoteInfo) (key : ℤ) : JNote :=
  let details := mapMidiToJianpu note.pitch key
  { start := note.start, length := note.length, pitch := note.pitch,
    intensity := note.intensity, jianpuNumber := details.jianpuNumber,
    octaveDot := details.octaveDot, accidental := details.accidental }

/-- The state of pass 1 of infoToBlocks: arena, raw block map, last covered
end time. -/
structure Pass1State where
  arena : Arena
  rawBlocks : JianpuBlockMap
  lastNoteEndTime : ℚ

/-- One note of pass 1 of JianpuModel.infoToBlocks (part_004 lines 121-143):
fill a rest before a gap, convert the note, add it to the block at its start
time, and advance the covered end using the block length after insertion. -/
def pass1Step (mi : MeasuresCtx) (st : Pass1State) (note : NoteInfo) : Pass1State :=
  let noteStart := note.start
  let measureNumber := measureNumberAtQ mi noteStart
  let rb1 :=
    if noteStart > st.lastNoteEndTime + epsTol then
      let restStart := st.lastNoteEndTime
      let restLength := noteStart - restStart
      let restMeasureNum := measureNumberAtQ mi restStart
      mapSet st.rawBlocks restStart
        { start := restStart, length := restLength, notes := [],
          measureNumber := restMeasureNum }
    else st.rawBlocks
  let key := keySignatureAtQ mi noteStart
  let jnote := createJianpuNote note key
  let noteId := st.arena.length
  let a1 := st.arena ++ [jnote]
  let block :=
    match mapGet rb1 noteStart with
    | some blk => blk
    | none => { start := noteStart, length := 0, notes := [],
                measureNumber := measureNumber }
  let r := addNote a1 block noteId
  { arena := r.1, rawBlocks := mapSet rb1 noteStart r.2.1,
    lastNoteEndTime := max st.lastNoteEndTime (noteStart + r.2.1.length) }

/-- The symbol-splitting do-while loop of infoToBlocks (part_004 lines
180-189), with fuel for the unbounded while. -/
def symSplitLoop (mi : MeasuresCtx) :
    ℕ → Arena → JianpuBlockMap → JianpuBlock → Arena × JianpuBlockMap
  | 0, a, m, b =>
    let r := splitToStandardSymbol mi a b
    mergeToMap r.1 m r.2.1
  | fuel + 1, a, m, b =>
    let r := splitToStandardSymbol mi a b
    let merged := mergeToMap r.1 m r.2.1
    match r.2.2 with
    | some rem => symSplitLoop mi fuel merged.1 merged.2 rem
    | none => merged

/-- The work-queue loop of infoToBlocks (part_004 lines 164-190): beat-split
first, re-queueing the remainder at the front, then symbol-split to
completion, merging every finished fragment into the result map. -/
def processQueue (mi : MeasuresCtx) :
    ℕ → Arena → JianpuBlockMap → List JianpuBlock → Arena × JianpuBlockMap
  | _, a, m, [] => (a, m)
  | 0, a, m, _ => (a, m)
  | fuel + 1, a, m, b :: rest =>
    let r := splitToBeat mi a b
    match r.2.2 with
    | some tail =>
      let merged := mergeToMap r.1 m r.2.1
      processQueue mi fuel merged.1 merged.2 (tail :: rest)
    | none =>
      let sym := symSplitLoop mi fuel r.1 m r.2.1
      processQueue mi fuel sym.1 sym.2 rest

/-- Fuel bound for the work-queue and symbol-split loops; any run that
terminates within this many steps is computed exactly. -/
def modelFuel : ℕ := 1000000

/-- Embeds JianpuModel.infoToBlocks (part_004 lines 117-195) on normalized
input: pass 1 grouping and rest synthesis, the final trailing rest, pass 2
splitting through the sorted work queue, and pass 3 render properties. -/
def infoToBlocks (mi : MeasuresCtx) (notes : List NoteInfo) (lastQ : ℚ) :
    Arena × JianpuBlockMap :=
  let p1 := notes.foldl (pass1Step mi)
    { arena := [], rawBlocks := [], lastNoteEndTime := 0 }
  let p1b :=
    if lastQ > p1.lastNoteEndTime + epsTol then
      let restStart := p1.lastNoteEndTime
      let restLength := lastQ - restStart
      if restLength > epsTol then
        let finalRest : JianpuBlock :=
          { start := restStart, length := restLength, notes := [],
            measureNumber := measureNumberAtQ mi restStart }
        { p1 with rawBlocks := mapSet p1.rawBlocks restStart finalRest }
      else p1
    else p1
  let sortedStarts := sortBy (fun x y => decide (x ≤ y)) (p1b.rawBlocks.map Prod.fst)
  let queue := sortedStarts.filterMap (fun s => mapGet p1b.rawBlocks s)
  let r := processQueue mi modelFuel p1b.arena [] queue
  (r.1, r.2.map (fun e => (e.1, calculateRenderProperties mi r.1 e.2)))

/-- Embeds the input normalization of JianpuModel.update (part_004 lines
78-111): sort the notes, compute lastQ plus the 1e-6 buffer, and default,
sort and zero-anchor the three signature lists. -/
def normalizeInfo (info : JianpuInfo) (defaultKey : Option ℤ) : JianpuInfo × ℚ :=
  let notes := sortBy (fun x y => decide (x.start ≤ y.start)) info.notes
  let lastQ := (info.notes.foldl (fun m n => max m (n.start + n.length)) 0) + epsTol
  let tempos1 := sortBy (fun x y => decide (x.start ≤ y.start))
    (if info.tempos.isEmpty then [DEFAULT_TEMPO] else info.tempos)
  let tempos := match tempos1 with
    | t :: _ => if t.start > epsTol then { DEFAULT_TEMPO with start := 0 } :: tempos1
                else tempos1
    | [] => tempos1
  let startingKey : KeySignatureInfo :=
    match defaultKey with
    | some k => ⟨0, k⟩
    | none => DEFAULT_KEY_SIGNATURE
  let keys1 := sortBy (fun x y => decide (x.start ≤ y.start))
    (if info.keySignatures.isEmpty then [startingKey] else info.keySignatures)
  let keys := match keys1 with
    | k :: _ => if k.start > epsTol then { startingKey with start := 0 } :: keys1 else keys1
    | [] => keys1
  let times1 := sortBy (fun x y => decide (x.start ≤ y.start))
    (if info.timeSignatures.isEmpty then [DEFAULT_TIME_SIGNATURE] else info.timeSignatures)
  let times := match times1 with
    | t :: _ => if t.start > epsTol then { DEFAULT_TIME_SIGNATURE with start := 0 } :: times1
                else times1
    | [] => times1
  ({ notes := notes, tempos := tempos, keySignatures := keys,
     timeSignatures := times }, lastQ)

/-- The built model: arena, measure context, final block map and total
duration (lastQ). -/
structure JianpuModel where
  arena : Arena
  measures : MeasuresCtx
  jianpuBlockMap : JianpuBlockMap
  lastQ : ℚ

/-- Embeds the JianpuModel constructor and update (part_004 lines 48-111):
normalize, build the measure context, and convert the notes to blocks. -/
def buildJianpuModel (info : JianpuInfo) (defaultKey : Option ℤ) : JianpuModel :=
  let n := normalizeInfo info defaultKey
  let mi : MeasuresCtx := { measuresInfo := buildChunks n.1 n.2 }
  let r := infoToBlocks mi n.1.notes n.2
  { arena := r.1, measures := mi, jianpuBlockMap := r.2, lastQ := n.2 }

/-- Embeds JianpuModel.getTotalDuration (part_004 lines 67-69). -/
def getTotalDuration (m : JianpuModel) : ℚ := m.lastQ

/-- The default 4/4 time signature value as a named constant. -/
def ts44 : TimeSignatureInfo := ⟨0, 4, 4⟩

/-- The default 60 qpm tempo value as a named constant. -/
def tempo60 : TempoInfo := ⟨0, 60⟩

/-- The default C key signature value as a named constant. -/
def keyC : KeySignatureInfo := ⟨0, 0⟩

/-- The constructor loop state after the chunk at time 0 has consumed the
three default signature entries. -/
def sigState1 : ChunkBuildState :=
  { tempoIndex := 1, keyIndex := 1, timeIndex := 1, currentTempo := tempo60,
    currentKeySignature := keyC, currentTimeSignature := ts44,
    measureNumberAtCurrentTimeSignature := 1, currentMeasureLength := 4,
    timeOfLastTimeSigChange := 0 }

/-- The chunk recorded at time 0 under default signatures. -/
def chunk0def : MeasureChunk :=
  { start := 0, measureNumber := 1, measureLength := 4, tempo := tempo60,
    keySignature := keyC, timeSignature := ts44, tempoChange := true,
    keyChange := true, timeChange := true }

/-- The chunk recorded at step k of the constructor loop under default
signatures, for k at least 1. -/
def plainChunk (k : ℕ) : MeasureChunk :=
  { start := (k : ℚ) * MIN_RESOLUTION, measureNumber := 1 + (k : ℚ) * MIN_RESOLUTION / 4,
    measureLength := 4, tempo := tempo60, keySignature := keyC, timeSignature := ts44 }

theorem jsRound_intCast (n : ℤ) : jsRound (n : ℚ) = n := by
  rw [jsRound_eq_floor, add_comm, Int.floor_add_int]
  norm_num

theorem chunkStep_succ (info : JianpuInfo) (hT : info.tempos = [tempo60])
    (hK : info.keySignatures = [keyC]) (hS : info.timeSignatures = [ts44]) (k : ℕ) :
    chunkStep info sigState1 k = (sigState1, plainChunk k) := by
  simp [chunkStep, hT, hK, hS, sigState1, plainChunk]

theorem chunkStep_zero (info : JianpuInfo) (hT : info.tempos = [tempo60])
    (hK : info.keySignatures = [keyC]) (hS : info.timeSignatures = [ts44]) :
    chunkStep info
      { tempoIndex := 0, keyIndex := 0, timeIndex := 0, currentTempo := tempo60,
        currentKeySignature := keyC, currentTimeSignature := ts44,
        measureNumberAtCurrentTimeSignature := 1,
        currentMeasureLength := getMeasureLength ts44,
        timeOfLastTimeSigChange := ts44.start } 0 = (sigState1, chunk0def) := by
  simp only [chunkStep, hT, hK, hS, getMeasureLength, ts44, tempo60, keyC,
    MIN_RESOLUTION, sigState1, chunk0def]
  norm_num [jsRound_eq_floor]

theorem chunkLoop_plain (info : JianpuInfo) (hT : info.tempos = [tempo60])
    (hK : info.keySignatures = [keyC]) (hS : info.timeSignatures = [ts44]) :
    ∀ n k, chunkLoop info sigState1 k n = (List.range n).map (fun j => plainChunk (k + j)) := by
  intro n
  induction n with
  | zero => intro k; simp [chunkLoop]
  | succ m ih =>
    intro k
    rw [chunkLoop, chunkStep_succ info hT hK hS k]
    rw [List.range_succ_eq_map, List.map_cons, List.map_map, ih (k + 1)]
    refine List.cons_eq_cons.mpr ⟨by rw [Nat.add_zero], ?_⟩
    apply List.map_congr_left
    intro j _
    simp only [Function.comp_apply]
    have h2 : k + 1 + j = k + Nat.succ j := by omega
    rw [h2]

/-- The number of constructor loop steps for a given score end. -/
def numStepsOf (lastQ : ℚ) : ℕ := (⌈lastQ / MIN_RESOLUTION⌉).toNat

theorem buildChunks_default (info : JianpuInfo) (hT : info.tempos = [tempo60])
    (hK : info.keySignatures = [keyC]) (hS : info.timeSignatures = [ts44])
    (lastQ : ℚ) (hpos : 1 ≤ numStepsOf lastQ) :
    buildChunks info lastQ =
      chunk0def :: (List.range (numStepsOf lastQ - 1)).map (fun j => plainChunk (1 + j)) := by
  unfold buildChunks
  rw [hT, hK, hS]
  simp only [List.headD]
  obtain ⟨m, hm⟩ : ∃ m, numStepsOf lastQ = m + 1 := ⟨numStepsOf lastQ - 1, by omega⟩
  rw [show (⌈lastQ / MIN_RESOLUTION⌉).toNat = numStepsOf lastQ from rfl, hm]
  rw [chunkLoop, chunkStep_zero info hT hK hS]
  rw [chunkLoop_plain info hT hK hS m 1]
  simp [hm]

theorem buildChunks_default_length (info : JianpuInfo) (hT : info.tempos = [tempo60])
    (hK : info.keySignatures = [keyC]) (hS : info.timeSignatures = [ts44])
    (lastQ : ℚ) (hpos : 1 ≤ numStepsOf lastQ) :
    (buildChunks info lastQ).length = numStepsOf lastQ := by
  rw [buildChunks_default info hT hK hS lastQ hpos]
  simp
  omega

theorem findIndex_default (info : JianpuInfo) (hT : info.tempos = [tempo60])
    (hK : info.keySignatures = [keyC]) (hS : info.timeSignatures = [ts44])
    (lastQ : ℚ) (hpos : 1 ≤ numStepsOf lastQ) (t : ℚ) (h0 : 0 ≤ t)
    (hin : jsFloor (t / MIN_RESOLUTION) ≤ (numStepsOf lastQ : ℤ) - 1) :
    findIndex { measuresInfo := buildChunks info lastQ } t =
      (jsFloor (t / MIN_RESOLUTION)).toNat := by
  unfold findIndex
  have hlen := buildChunks_default_length info hT hK hS lastQ hpos
  have hnn : 0 ≤ jsFloor (t / MIN_RESOLUTION) := by
    rw [jsFloor_eq_floor]
    apply Int.floor_nonneg.mpr
    apply div_nonneg h0
    norm_num [MIN_RESOLUTION]
  simp only [hlen]
  omega

theorem measureNumberAtQ_default (info : JianpuInfo) (hT : info.tempos = [tempo60])
    (hK : info.keySignatures = [keyC]) (hS : info.timeSignatures = [ts44])
    (lastQ : ℚ) (hpos : 1 ≤ numStepsOf lastQ) (t : ℚ) (h0 : 0 ≤ t)
    (hin : jsFloor (t / MIN_RESOLUTION) ≤ (numStepsOf lastQ : ℤ) - 1) :
    measureNumberAtQ { measuresInfo := buildChunks info lastQ } t =
      1 + t / 4 + 1/1000000000 := by
  unfold measureNumberAtQ
  rw [findIndex_default info hT hK hS lastQ hpos t h0 hin,
      buildChunks_default info hT hK hS lastQ hpos]
  rcases hk : (jsFloor (t / MIN_RESOLUTION)).toNat with _ | j
  · simp only [List.get?_cons_zero]
    simp [chunk0def]
  · have hnn : 0 ≤ jsFloor (t / MIN_RESOLUTION) := by
      rw [jsFloor_eq_floor]
      apply Int.floor_nonneg.mpr
      apply div_nonneg h0
      norm_num [MIN_RESOLUTION]
    have hj : j < numStepsOf lastQ - 1 := by omega
    simp only [List.get?_cons_succ]
    rw [List.get?_map, List.get?_range hj]
    simp [plainChunk, MIN_RESOLUTION]
    ring

theorem measureLengthAtQ_default (info : JianpuInfo) (hT : info.tempos = [tempo60])
    (hK : info.keySignatures = [keyC]) (hS : info.timeSignatures = [ts44])
    (lastQ : ℚ) (hpos : 1 ≤ numStepsOf lastQ) (t : ℚ) :
    measureLengthAtQ { measuresInfo := buildChunks info lastQ } t = 4 := by
  unfold measureLengthAtQ
  rcases hget : (buildChunks info lastQ).get? (findIndex { measuresInfo := buildChunks info lastQ } t) with _ | r
  · simp [getMeasureLength, DEFAULT_TIME_SIGNATURE]
  · have hmem := List.get?_mem hget
    rw [buildChunks_default info hT hK hS lastQ hpos] at hmem
    simp only [List.mem_cons, List.mem_map, List.mem_range] at hmem
    rcases hmem with h | ⟨j, _, h⟩ <;> subst h <;> simp [chunk0def, plainChunk]

theorem timeSignatureAtQ_default (info : JianpuInfo) (hT : info.tempos = [tempo60])
    (hK : info.keySignatures = [keyC]) (hS : info.timeSignatures = [ts44])
    (lastQ : ℚ) (hpos : 1 ≤ numStepsOf lastQ) (t : ℚ) :
    timeSignatureAtQ { measuresInfo := buildChunks info lastQ } t = some ts44 := by
  unfold timeSignatureAtQ
  rcases hget : (buildChunks info lastQ).get? (findIndex { measuresInfo := buildChunks info lastQ } t) with _ | r
  · simp [DEFAULT_TIME_SIGNATURE, ts44]
  · have hmem := List.get?_mem hget
    rw [buildChunks_default info hT hK hS lastQ hpos] at hmem
    simp only [List.mem_cons, List.mem_map, List.mem_range] at hmem
    rcases hmem with h | ⟨j, _, h⟩ <;> subst h <;> simp [chunk0def, plainChunk]

theorem keySignatureAtQ_default (info : JianpuInfo) (hT : info.tempos = [tempo60])
    (hK : info.keySignatures = [keyC]) (hS : info.timeSignatures = [ts44])
    (lastQ : ℚ) (hpos : 1 ≤ numStepsOf lastQ) (t : ℚ) :
    keySignatureAtQ { measuresInfo := buildChunks info lastQ } t = 0 := by
  unfold keySignatureAtQ
  rcases hget : (buildChunks info lastQ).get? (findIndex { measuresInfo := buildChunks info lastQ } t) with _ | r
  · simp [DEFAULT_KEY_SIGNATURE]
  · have hmem := List.get?_mem hget
    rw [buildChunks_default info hT hK hS lastQ hpos] at hmem
    simp only [List.mem_cons, List.mem_map, List.mem_range] at hmem
    rcases hmem with h | ⟨j, _, h⟩ <;> subst h <;> simp [chunk0def, plainChunk, keyC]


/-- Builds a JianpuInfo with the three normalized default signature lists. -/
def sig44 (notes : List NoteInfo) : JianpuInfo :=
  { notes := notes, tempos := [tempo60], keySignatures := [keyC],
    timeSignatures := [ts44] }

theorem sig44_notes (notes : List NoteInfo) : (sig44 notes).notes = notes := rfl

/-- The lastQ value of a score whose notes end at quarter 4. -/
def lastQ4 : ℚ := 4000001/1000000

theorem steps4 : numStepsOf lastQ4 = 65 := by
  have h : (⌈(4000001/62500 : ℚ)⌉ : ℤ) = 65 := by
    rw [Int.ceil_eq_iff]
    norm_num
  norm_num [numStepsOf, lastQ4, MIN_RESOLUTION]
  rw [h]
  rfl

theorem mn4 (notes : List NoteInfo) (t : ℚ) (h0 : 0 ≤ t)
    (hin : jsFloor (t / MIN_RESOLUTION) ≤ 64) :
    measureNumberAtQ { measuresInfo := buildChunks (sig44 notes) (4000001/1000000) } t =
      1 + t / 4 + 1/1000000000 :=
  measureNumberAtQ_default (sig44 notes) rfl rfl rfl lastQ4 (by rw [steps4]; omega)
    t h0 (by rw [steps4]; exact_mod_cast hin)

theorem ml4 (notes : List NoteInfo) (t : ℚ) :
    measureLengthAtQ { measuresInfo := buildChunks (sig44 notes) (4000001/1000000) } t = 4 :=
  measureLengthAtQ_default (sig44 notes) rfl rfl rfl lastQ4 (by rw [steps4]; omega) t

theorem tsg4 (notes : List NoteInfo) (t : ℚ) :
    timeSignatureAtQ { measuresInfo := buildChunks (sig44 notes) (4000001/1000000) } t = some ts44 :=
  timeSignatureAtQ_default (sig44 notes) rfl rfl rfl lastQ4 (by rw [steps4]; omega) t

theorem key4 (notes : List NoteInfo) (t : ℚ) :
    keySignatureAtQ { measuresInfo := buildChunks (sig44 notes) (4000001/1000000) } t = 0 :=
  keySignatureAtQ_default (sig44 notes) rfl rfl rfl lastQ4 (by rw [steps4]; omega) t

theorem map60 : mapMidiToJianpu 60 0 = ⟨1, 0, 0⟩ := by with_unfolding_all decide

/-- The C1 failing input: a whole note and a same-pitch quarter re-strike both
at time 0. -/
def c1info0 : JianpuInfo := { notes := [⟨0, 4, 60, 127⟩, ⟨0, 1, 60, 127⟩] }

theorem c1normalize :
    normalizeInfo c1info0 none = (sig44 ([⟨0, 4, 60, 127⟩, ⟨0, 1, 60, 127⟩] : List NoteInfo), 4000001/1000000) := by
  norm_num [normalizeInfo, sortBy, insertSorted, sig44, c1info0,
    DEFAULT_TEMPO, DEFAULT_KEY_SIGNATURE, DEFAULT_TIME_SIGNATURE,
    tempo60, keyC, ts44, epsTol]

def c1n60a : JNote := ⟨0, 4, 60, 127, 1, 0, 0, none, none⟩
def c1n60b : JNote := ⟨0, 1, 60, 127, 1, 0, 0, none, none⟩
def c1blk : JianpuBlock :=
  { start := 0, length := 1, notes := [1], measureNumber := 1000000001/1000000000 }

theorem c1pass1 :
    List.foldl (pass1Step { measuresInfo := buildChunks (sig44 ([⟨0, 4, 60, 127⟩, ⟨0, 1, 60, 127⟩] : List NoteInfo)) (4000001/1000000) }) ⟨[], [], 0⟩ ([⟨0, 4, 60, 127⟩, ⟨0, 1, 60, 127⟩] : List NoteInfo) =
      ⟨[c1n60a, c1n60b], [(0, c1blk)], 4⟩ := by
  have hk0 := key4 [⟨0, 4, 60, 127⟩, ⟨0, 1, 60, 127⟩] 0
  have hm0 : measureNumberAtQ { measuresInfo := buildChunks (sig44 ([⟨0, 4, 60, 127⟩, ⟨0, 1, 60, 127⟩] : List NoteInfo)) (4000001/1000000) } 0 = 1000000001/1000000000 := by
    rw [mn4 [⟨0, 4, 60, 127⟩, ⟨0, 1, 60, 127⟩] 0 (by norm_num) (by norm_num [jsFloor_eq_floor, MIN_RESOLUTION])]
    norm_num
  norm_num [pass1Step, mapSet, mapGet, addNote, createJianpuNote, map60,
    hk0, hm0, isSafeZero, epsTol, abs_lt, le_abs, List.findIdx?,
    c1n60a, c1n60b, c1blk]

def c1blkb : JianpuBlock :=
  { start := 0, length := 1, notes := [1], measureNumber := 1000000001/1000000000,
    beatBegin := some true, beatEnd := some true,
    isTieStart := some false, isTieEnd := some false }

theorem c1beat :
    splitToBeat { measuresInfo := buildChunks (sig44 ([⟨0, 4, 60, 127⟩, ⟨0, 1, 60, 127⟩] : List NoteInfo)) (4000001/1000000) } [c1n60a, c1n60b] c1blk = ([c1n60a, c1n60b], c1blkb, none) := by
  have hts := tsg4 [⟨0, 4, 60, 127⟩, ⟨0, 1, 60, 127⟩] 0
  have hml := ml4 [⟨0, 4, 60, 127⟩, ⟨0, 1, 60, 127⟩] 0
  have hm0 : measureNumberAtQ { measuresInfo := buildChunks (sig44 ([⟨0, 4, 60, 127⟩, ⟨0, 1, 60, 127⟩] : List NoteInfo)) (4000001/1000000) } 0 = 1000000001/1000000000 := by
    rw [mn4 [⟨0, 4, 60, 127⟩, ⟨0, 1, 60, 127⟩] 0 (by norm_num) (by norm_num [jsFloor_eq_floor, MIN_RESOLUTION])]
    norm_num
  norm_num [splitToBeat, blockSplit, splitJianpuNote, addNote, isTruthy,
    hts, hml, hm0, isSafeZero, epsTol, abs_lt, le_abs,
    jsFloor_eq_floor, jsRound_eq_floor, ts44,
    c1n60a, c1n60b, c1blk, c1blkb]

theorem c1sym :
    splitToStandardSymbol { measuresInfo := buildChunks (sig44 ([⟨0, 4, 60, 127⟩, ⟨0, 1, 60, 127⟩] : List NoteInfo)) (4000001/1000000) } [c1n60a, c1n60b] c1blkb =
      ([c1n60a, c1n60b], c1blkb, none) := by
  norm_num [splitToStandardSymbol, isSafeZero, epsTol, abs_lt, le_abs,
    MIN_RESOLUTION, c1blkb]

theorem c1queue (f : ℕ) :
    processQueue { measuresInfo := buildChunks (sig44 ([⟨0, 4, 60, 127⟩, ⟨0, 1, 60, 127⟩] : List NoteInfo)) (4000001/1000000) } (f + 1) [c1n60a, c1n60b] [] [c1blk] =
      ([c1n60a, c1n60b], [(0, c1blkb)]) := by
  have hstart : c1blkb.start = 0 := rfl
  rcases f with _ | f2 <;>
  · rw [processQueue, c1beat]
    simp only []
    rw [symSplitLoop, c1sym]
    simp [mergeToMap, mapGet, mapSet, hstart]
    rw [processQueue]

def c1blkFinal : JianpuBlock :=
  { start := 0, length := 1, notes := [1], measureNumber := 1000000001/1000000000,
    durationLines := some 0, augmentationDash := some false,
    beatBegin := some true, beatEnd := some true,
    isTieStart := some false, isTieEnd := some false }

theorem c1render :
    calculateRenderProperties { measuresInfo := buildChunks (sig44 ([⟨0, 4, 60, 127⟩, ⟨0, 1, 60, 127⟩] : List NoteInfo)) (4000001/1000000) } [c1n60a, c1n60b] c1blkb = c1blkFinal := by
  have hts := tsg4 [⟨0, 4, 60, 127⟩, ⟨0, 1, 60, 127⟩] 0
  norm_num [calculateRenderProperties, hts, isSafeZero, epsTol, abs_lt, le_abs,
    jsFmodOne, jsTrunc, jsFloor_eq_floor, ts44,
    c1n60a, c1n60b, c1blkb, c1blkFinal]

theorem c1model :
    buildJianpuModel c1info0 none =
      { arena := [c1n60a, c1n60b],
        measures := { measuresInfo := buildChunks (sig44 ([⟨0, 4, 60, 127⟩, ⟨0, 1, 60, 127⟩] : List NoteInfo)) (4000001/1000000) },
        jianpuBlockMap := [(0, c1blkFinal)], lastQ := 4000001/1000000 } := by
  have hfuel : modelFuel = 999999 + 1 := rfl
  have hblk : c1blk.start = 0 := rfl
  simp only [buildJianpuModel, c1normalize, infoToBlocks, sig44_notes]
  rw [c1pass1]
  norm_num [sortBy, insertSorted, mapGet, mapSet, epsTol, hblk,
    List.filterMap_cons, List.filterMap_nil]
  rw [hfuel, c1queue]
  norm_num [c1render]

/-- C1: the claim fails on the code and the spec states the intent.  On the
well-formed input of a whole note and a shorter same-pitch note both starting
at 0 (every start at least 0, every length positive), the build produces a
single block covering only the quarter from 0 to 1, while totalDuration() is
4.000001: the block collection leaves the gap from 1 to 4 uncovered and its
final end misses totalDuration() by far more than 1e-6, so the blocks do not
partition the interval from 0 to totalDuration(). -/
theorem partition_gap_on_overlapping_notes :
    (buildJianpuModel c1info0 none).jianpuBlockMap.map (fun e => (e.1, e.2.length))
        = [(0, 1)] ∧
    getTotalDuration (buildJianpuModel c1info0 none) = 4000001/1000000 ∧
    ¬ |(0 : ℚ) + 1 - getTotalDuration (buildJianpuModel c1info0 none)| < 1/1000000 := by
  have hlen : c1blkFinal.length = 1 := rfl
  refine ⟨?_, ?_, ?_⟩ <;> rw [c1model] <;>
    norm_num [getTotalDuration, hlen, abs_lt, le_abs]

theorem mapSet_keys_of_mem (m : JianpuBlockMap) (k : ℚ) (v : JianpuBlock)
    (h : m.any (fun e => e.1 = k) = true) :
    (mapSet m k v).map Prod.fst = m.map Prod.fst := by
  unfold mapSet
  rw [if_pos h, List.map_map]
  apply List.map_congr_left
  intro e _
  simp only [Function.comp_apply]
  split_ifs with he
  · exact he.symm
  · rfl

theorem mapSet_keys_nodup (m : JianpuBlockMap) (k : ℚ) (v : JianpuBlock)
    (h : (m.map Prod.fst).Nodup) :
    ((mapSet m k v).map Prod.fst).Nodup := by
  by_cases hmem : m.any (fun e => e.1 = k) = true
  · rw [mapSet_keys_of_mem m k v hmem]
    exact h
  · unfold mapSet
    rw [if_neg hmem, List.map_append]
    simp only [List.map_cons, List.map_nil]
    apply List.Nodup.append h (List.nodup_singleton k)
    intro x hx hk
    simp only [List.mem_singleton] at hk
    subst hk
    simp only [List.mem_map] at hx
    obtain ⟨e, he, hek⟩ := hx
    apply hmem
    rw [List.any_eq_true]
    exact ⟨e, he, by simp [hek]⟩

theorem mergeToMap_keys_nodup (a : Arena) (m : JianpuBlockMap) (b : JianpuBlock)
    (h : (m.map Prod.fst).Nodup) :
    (((mergeToMap a m b).2).map Prod.fst).Nodup := by
  unfold mergeToMap
  rcases hget : mapGet m b.start with _ | eb
  · exact mapSet_keys_nodup m b.start b h
  · simp only
    split_ifs <;> exact mapSet_keys_nodup m b.start _ h

theorem symSplitLoop_keys_nodup (mi : MeasuresCtx) :
    ∀ (fuel : ℕ) (a : Arena) (m : JianpuBlockMap) (b : JianpuBlock),
      (m.map Prod.fst).Nodup → (((symSplitLoop mi fuel a m b).2).map Prod.fst).Nodup := by
  intro fuel
  induction fuel with
  | zero =>
    intro a m b h
    unfold symSplitLoop
    exact mergeToMap_keys_nodup _ _ _ h
  | succ f ih =>
    intro a m b h
    unfold symSplitLoop
    rcases hr : (splitToStandardSymbol mi a b).2.2 with _ | rem
    · simp only [hr]
      exact mergeToMap_keys_nodup _ _ _ h
    · simp only [hr]
      exact ih _ _ _ (mergeToMap_keys_nodup _ _ _ h)

theorem processQueue_keys_nodup (mi : MeasuresCtx) :
    ∀ (fuel : ℕ) (a : Arena) (m : JianpuBlockMap) (q : List JianpuBlock),
      (m.map Prod.fst).Nodup → (((processQueue mi fuel a m q).2).map Prod.fst).Nodup := by
  intro fuel
  induction fuel with
  | zero =>
    intro a m q h
    rcases q with _ | ⟨b, rest⟩ <;> simpa [processQueue] using h
  | succ f ih =>
    intro a m q h
    rcases q with _ | ⟨b, rest⟩
    · simpa [processQueue] using h
    · unfold processQueue
      rcases hr : (splitToBeat mi a b).2.2 with _ | tail
      · simp only [hr]
        exact ih _ _ _ (symSplitLoop_keys_nodup mi f _ _ _ h)
      · simp only [hr]
        exact ih _ _ _ (mergeToMap_keys_nodup _ _ _ h)

theorem buildJianpuModel_keys_nodup (info : JianpuInfo) (k : Option ℤ) :
    (((buildJianpuModel info k).jianpuBlockMap).map Prod.fst).Nodup := by
  unfold buildJianpuModel infoToBlocks
  simp only [List.map_map]
  have h := processQueue_keys_nodup
    { measuresInfo := buildChunks (normalizeInfo info k).1 (normalizeInfo info k).2 }
    modelFuel
  have hcomp : ∀ (l : JianpuBlockMap) (mi2 : MeasuresCtx) (a2 : Arena),
      (l.map ((fun e => Prod.fst e) ∘
        (fun e => (e.1, calculateRenderProperties mi2 a2 e.2)))) = l.map Prod.fst := by
    intro l mi2 a2
    apply List.map_congr_left
    intro e _
    rfl
  rw [hcomp]
  apply h
  simp

/-- The lastQ value of the C8 score: notes end at 1.0000001. -/
def lastQ8 : ℚ := 10000011/10000000

theorem steps8 : numStepsOf lastQ8 = 17 := by
  have h : (⌈(10000011/625000 : ℚ)⌉ : ℤ) = 17 := by
    rw [Int.ceil_eq_iff]
    norm_num
  norm_num [numStepsOf, lastQ8, MIN_RESOLUTION]
  rw [h]
  rfl

theorem mn8 (notes : List NoteInfo) (t : ℚ) (h0 : 0 ≤ t)
    (hin : jsFloor (t / MIN_RESOLUTION) ≤ 16) :
    measureNumberAtQ { measuresInfo := buildChunks (sig44 notes) (10000011/10000000) } t =
      1 + t / 4 + 1/1000000000 :=
  measureNumberAtQ_default (sig44 notes) rfl rfl rfl lastQ8 (by rw [steps8]; omega)
    t h0 (by rw [steps8]; exact_mod_cast hin)

theorem ml8 (notes : List NoteInfo) (t : ℚ) :
    measureLengthAtQ { measuresInfo := buildChunks (sig44 notes) (10000011/10000000) } t = 4 :=
  measureLengthAtQ_default (sig44 notes) rfl rfl rfl lastQ8 (by rw [steps8]; omega) t

theorem tsg8 (notes : List NoteInfo) (t : ℚ) :
    timeSignatureAtQ { measuresInfo := buildChunks (sig44 notes) (10000011/10000000) } t = some ts44 :=
  timeSignatureAtQ_default (sig44 notes) rfl rfl rfl lastQ8 (by rw [steps8]; omega) t

theorem key8 (notes : List NoteInfo) (t : ℚ) :
    keySignatureAtQ { measuresInfo := buildChunks (sig44 notes) (10000011/10000000) } t = 0 :=
  keySignatureAtQ_default (sig44 notes) rfl rfl rfl lastQ8 (by rw [steps8]; omega) t

theorem map62 : mapMidiToJianpu 62 0 = ⟨2, 0, 0⟩ := by with_unfolding_all decide

/-- The C8 input: two notes whose onsets differ by 1e-7, far below the 1e-6
tolerance the claim says the merge applies. -/
def c8info : JianpuInfo := { notes := [⟨0, 1, 60, 127⟩, ⟨1/10000000, 1, 62, 127⟩] }

theorem c8normalize :
    normalizeInfo c8info none = (sig44 ([⟨0, 1, 60, 127⟩, ⟨1/10000000, 1, 62, 127⟩] : List NoteInfo), 10000011/10000000) := by
  norm_num [normalizeInfo, sortBy, insertSorted, sig44, c8info,
    DEFAULT_TEMPO, DEFAULT_KEY_SIGNATURE, DEFAULT_TIME_SIGNATURE,
    tempo60, keyC, ts44, epsTol]

def c8n60 : JNote := ⟨0, 1, 60, 127, 1, 0, 0, none, none⟩
def c8n62 : JNote := ⟨1/10000000, 1, 62, 127, 2, 0, 0, none, none⟩
def c8blkA : JianpuBlock :=
  { start := 0, length := 1, notes := [0], measureNumber := 1000000001/1000000000 }
def c8blkB : JianpuBlock :=
  { start := 1/10000000, length := 1, notes := [1], measureNumber := 500000013/500000000 }

theorem c8pass1 :
    List.foldl (pass1Step { measuresInfo := buildChunks (sig44 ([⟨0, 1, 60, 127⟩, ⟨1/10000000, 1, 62, 127⟩] : List NoteInfo)) (10000011/10000000) }) ⟨[], [], 0⟩ ([⟨0, 1, 60, 127⟩, ⟨1/10000000, 1, 62, 127⟩] : List NoteInfo) =
      ⟨[c8n60, c8n62], [(0, c8blkA), (1/10000000, c8blkB)], 10000001/10000000⟩ := by
  have hk0 := key8 [⟨0, 1, 60, 127⟩, ⟨1/10000000, 1, 62, 127⟩] 0
  have hk1 := key8 [⟨0, 1, 60, 127⟩, ⟨1/10000000, 1, 62, 127⟩] (1/10000000)
  have hm0 : measureNumberAtQ { measuresInfo := buildChunks (sig44 ([⟨0, 1, 60, 127⟩, ⟨1/10000000, 1, 62, 127⟩] : List NoteInfo)) (10000011/10000000) } 0 = 1000000001/1000000000 := by
    rw [mn8 [⟨0, 1, 60, 127⟩, ⟨1/10000000, 1, 62, 127⟩] 0 (by norm_num) (by norm_num [jsFloor_eq_floor, MIN_RESOLUTION])]
    norm_num
  have hm1 : measureNumberAtQ { measuresInfo := buildChunks (sig44 ([⟨0, 1, 60, 127⟩, ⟨1/10000000, 1, 62, 127⟩] : List NoteInfo)) (10000011/10000000) } (1/10000000) = 500000013/500000000 := by
    rw [mn8 [⟨0, 1, 60, 127⟩, ⟨1/10000000, 1, 62, 127⟩] (1/10000000) (by norm_num) (by norm_num [jsFloor_eq_floor, MIN_RESOLUTION])]
    norm_num
  norm_num [pass1Step, mapSet, mapGet, addNote, createJianpuNote, map60, map62,
    hk0, hk1, hm0, hm1, isSafeZero, epsTol, abs_lt, le_abs, List.findIdx?,
    c8n60, c8n62, c8blkA, c8blkB]

def c8blkAb : JianpuBlock :=
  { start := 0, length := 1, notes := [0], measureNumber := 1000000001/1000000000,
    beatBegin := some true, beatEnd := some true,
    isTieStart := some false, isTieEnd := some false }

def c8blkBb : JianpuBlock :=
  { start := 1/10000000, length := 1, notes := [1], measureNumber := 500000013/500000000,
    beatBegin := some true, beatEnd := some true,
    isTieStart := some false, isTieEnd := some false }

theorem c8beatA :
    splitToBeat { measuresInfo := buildChunks (sig44 ([⟨0, 1, 60, 127⟩, ⟨1/10000000, 1, 62, 127⟩] : List NoteInfo)) (10000011/10000000) } [c8n60, c8n62] c8blkA = ([c8n60, c8n62], c8blkAb, none) := by
  have hts := tsg8 [⟨0, 1, 60, 127⟩, ⟨1/10000000, 1, 62, 127⟩] 0
  have hml := ml8 [⟨0, 1, 60, 127⟩, ⟨1/10000000, 1, 62, 127⟩] 0
  have hm0 : measureNumberAtQ { measuresInfo := buildChunks (sig44 ([⟨0, 1, 60, 127⟩, ⟨1/10000000, 1, 62, 127⟩] : List NoteInfo)) (10000011/10000000) } 0 = 1000000001/1000000000 := by
    rw [mn8 [⟨0, 1, 60, 127⟩, ⟨1/10000000, 1, 62, 127⟩] 0 (by norm_num) (by norm_num [jsFloor_eq_floor, MIN_RESOLUTION])]
    norm_num
  norm_num [splitToBeat, blockSplit, splitJianpuNote, addNote, isTruthy,
    hts, hml, hm0, isSafeZero, epsTol, abs_lt, le_abs,
    jsFloor_eq_floor, jsRound_eq_floor, ts44,
    c8n60, c8n62, c8blkA, c8blkAb]

theorem c8beatB :
    splitToBeat { measuresInfo := buildChunks (sig44 ([⟨0, 1, 60, 127⟩, ⟨1/10000000, 1, 62, 127⟩] : List NoteInfo)) (10000011/10000000) } [c8n60, c8n62] c8blkB = ([c8n60, c8n62], c8blkBb, none) := by
  have hts := tsg8 [⟨0, 1, 60, 127⟩, ⟨1/10000000, 1, 62, 127⟩] (1/10000000)
  have hml := ml8 [⟨0, 1, 60, 127⟩, ⟨1/10000000, 1, 62, 127⟩] (1/10000000)
  have hm1 : measureNumberAtQ { measuresInfo := buildChunks (sig44 ([⟨0, 1, 60, 127⟩, ⟨1/10000000, 1, 62, 127⟩] : List NoteInfo)) (10000011/10000000) } (1/10000000) = 500000013/500000000 := by
    rw [mn8 [⟨0, 1, 60, 127⟩, ⟨1/10000000, 1, 62, 127⟩] (1/10000000) (by norm_num) (by norm_num [jsFloor_eq_floor, MIN_RESOLUTION])]
    norm_num
  norm_num [splitToBeat, blockSplit, splitJianpuNote, addNote, isTruthy,
    hts, hml, hm1, isSafeZero, epsTol, abs_lt, le_abs,
    jsFloor_eq_floor, jsRound_eq_floor, ts44,
    c8n60, c8n62, c8blkB, c8blkBb]

theorem c8symA :
    splitToStandardSymbol { measuresInfo := buildChunks (sig44 ([⟨0, 1, 60, 127⟩, ⟨1/10000000, 1, 62, 127⟩] : List NoteInfo)) (10000011/10000000) } [c8n60, c8n62] c8blkAb =
      ([c8n60, c8n62], c8blkAb, none) := by
  norm_num [splitToStandardSymbol, isSafeZero, epsTol, abs_lt, le_abs,
    MIN_RESOLUTION, c8blkAb]

theorem c8symB :
    splitToStandardSymbol { measuresInfo := buildChunks (sig44 ([⟨0, 1, 60, 127⟩, ⟨1/10000000, 1, 62, 127⟩] : List NoteInfo)) (10000011/10000000) } [c8n60, c8n62] c8blkBb =
      ([c8n60, c8n62], c8blkBb, none) := by
  norm_num [splitToStandardSymbol, isSafeZero, epsTol, abs_lt, le_abs,
    MIN_RESOLUTION, c8blkBb]

theorem c8queue (f : ℕ) :
    processQueue { measuresInfo := buildChunks (sig44 ([⟨0, 1, 60, 127⟩, ⟨1/10000000, 1, 62, 127⟩] : List NoteInfo)) (10000011/10000000) } (f + 1 + 1) [c8n60, c8n62] [] [c8blkA, c8blkB] =
      ([c8n60, c8n62], [(0, c8blkAb), (1/10000000, c8blkBb)]) := by
  have hstartA : c8blkAb.start = 0 := rfl
  have hstartB : c8blkBb.start = 1/10000000 := rfl
  rcases f with _ | f2 <;>
  · rw [processQueue, c8beatA]
    simp only []
    rw [symSplitLoop, c8symA]
    norm_num [mergeToMap, mapGet, mapSet, hstartA]
    rw [processQueue, c8beatB]
    simp only []
    rw [symSplitLoop, c8symB]
    norm_num [mergeToMap, mapGet, mapSet, hstartA, hstartB]
    rw [processQueue]

def c8blkAF : JianpuBlock :=
  { start := 0, length := 1, notes := [0], measureNumber := 1000000001/1000000000,
    durationLines := some 0, augmentationDash := some false,
    beatBegin := some true, beatEnd := some true,
    isTieStart := some false, isTieEnd := some false }

def c8blkBF : JianpuBlock :=
  { start := 1/10000000, length := 1, notes := [1], measureNumber := 500000013/500000000,
    durationLines := some 0, augmentationDash := some false,
    beatBegin := some true, beatEnd := some true,
    isTieStart := some false, isTieEnd := some false }

theorem c8renderA :
    calculateRenderProperties { measuresInfo := buildChunks (sig44 ([⟨0, 1, 60, 127⟩, ⟨1/10000000, 1, 62, 127⟩] : List NoteInfo)) (10000011/10000000) } [c8n60, c8n62] c8blkAb = c8blkAF := by
  have hts := tsg8 [⟨0, 1, 60, 127⟩, ⟨1/10000000, 1, 62, 127⟩] 0
  norm_num [calculateRenderProperties, hts, isSafeZero, epsTol, abs_lt, le_abs,
    jsFmodOne, jsTrunc, jsFloor_eq_floor, ts44,
    c8n60, c8n62, c8blkAb, c8blkAF]

theorem c8renderB :
    calculateRenderProperties { measuresInfo := buildChunks (sig44 ([⟨0, 1, 60, 127⟩, ⟨1/10000000, 1, 62, 127⟩] : List NoteInfo)) (10000011/10000000) } [c8n60, c8n62] c8blkBb = c8blkBF := by
  have hts := tsg8 [⟨0, 1, 60, 127⟩, ⟨1/10000000, 1, 62, 127⟩] (1/10000000)
  norm_num [calculateRenderProperties, hts, isSafeZero, epsTol, abs_lt, le_abs,
    jsFmodOne, jsTrunc, jsFloor_eq_floor, ts44,
    c8n60, c8n62, c8blkBb, c8blkBF]

theorem c8model :
    buildJianpuModel c8info none =
      { arena := [c8n60, c8n62],
        measures := { measuresInfo := buildChunks (sig44 ([⟨0, 1, 60, 127⟩, ⟨1/10000000, 1, 62, 127⟩] : List NoteInfo)) (10000011/10000000) },
        jianpuBlockMap := [(0, c8blkAF), (1/10000000, c8blkBF)],
        lastQ := 10000011/10000000 } := by
  have hfuel : modelFuel = 999998 + 1 + 1 := rfl
  have hblkA : c8blkA.start = 0 := rfl
  have hblkB : c8blkB.start = 1/10000000 := rfl
  simp only [buildJianpuModel, c8normalize, infoToBlocks, sig44_notes]
  rw [c8pass1]
  norm_num [sortBy, insertSorted, mapGet, mapSet, epsTol, hblkA, hblkB,
    List.filterMap_cons, List.filterMap_nil]
  rw [hfuel, c8queue]
  norm_num [c8renderA, c8renderB]

/-- C8 counterexample: the claim fails on the code.  On two notes whose
onsets differ by 1e-7 quarters (well below the claimed 1e-6 tolerance), the
final collection holds two distinct blocks at start times 0 and 1e-7: the
merge keys blocks by exact start-time equality (a JS Map), so start times
differing by less than 1e-6 are not merged. -/
theorem merge_keeps_blocks_closer_than_tolerance :
    (buildJianpuModel c8info none).jianpuBlockMap.map Prod.fst = [0, 1/10000000] ∧
    |(0 : ℚ) - 1/10000000| < 1/1000000 ∧ (0 : ℚ) ≠ 1/10000000 := by
  refine ⟨?_, by norm_num [abs_lt], by norm_num⟩
  rw [c8model]
  norm_num

/-- C8 amended: mergeToMap merges a fragment into an existing block exactly
when the collection already holds a block whose start time equals the
fragment's start time exactly (the key set is then unchanged), and
consequently the final collection of a build never contains two distinct
blocks with equal start times; start times differing by any nonzero amount,
even below 1e-6, remain separate entries. -/
theorem mergeToMap_exact_start_matching :
    (∀ (a : Arena) (m : JianpuBlockMap) (b : JianpuBlock),
       m.any (fun e => e.1 = b.start) = true →
       ((mergeToMap a m b).2).map Prod.fst = m.map Prod.fst) ∧
    (∀ (info : JianpuInfo) (k : Option ℤ),
       (((buildJianpuModel info k).jianpuBlockMap).map Prod.fst).Nodup) := by
  constructor
  · intro a m b h
    unfold mergeToMap
    rcases hget : mapGet m b.start with _ | eb
    · exact mapSet_keys_of_mem m b.start b h
    · simp only
      split_ifs <;> exact mapSet_keys_of_mem m b.start _ h
  · intro info k
    exact buildJianpuModel_keys_nodup info k

/-- C8 amended witness: a singleton collection at key 0 and a block starting
at 0, plus the empty score. -/
theorem mergeToMap_exact_start_matching_witness :
    (([((0:ℚ), ({} : JianpuBlock))] : JianpuBlockMap).any
        (fun e => e.1 = ({} : JianpuBlock).start) = true) ∧
    ((mergeToMap [] [((0:ℚ), {})] ({} : JianpuBlock)).2).map Prod.fst =
      ([((0:ℚ), ({} : JianpuBlock))] : JianpuBlockMap).map Prod.fst ∧
    (((buildJianpuModel { notes := [] } none).jianpuBlockMap).map Prod.fst).Nodup := by
  have h : (([((0:ℚ), ({} : JianpuBlock))] : JianpuBlockMap).any
      (fun e => e.1 = ({} : JianpuBlock).start) = true) := by
    norm_num [JianpuBlock.start]
  exact ⟨h, mergeToMap_exact_start_matching.1 [] [((0:ℚ), {})] {} h,
    mergeToMap_exact_start_matching.2 { notes := [] } none⟩

/-- C9: a split point at or before the block start, or at or beyond the block
end, makes JianpuBlock.split return the no-op signal (none), and likewise
splitJianpuNote when the point is not strictly inside the note span.  In this
functional embedding mutation is explicit, so the none return carries with it
that the block, the note and the arena are left untouched. -/
theorem split_out_of_range_noop (mi : MeasuresCtx) (a : Arena) (b : JianpuBlock)
    (i : ℕ) (n : JNote) (q : ℚ) (hn : a.get? i = some n) :
    (q ≤ b.start ∨ b.start + b.length ≤ q → blockSplit mi a b q = none) ∧
    (q ≤ n.start ∨ n.start + n.length ≤ q → splitJianpuNote a i q = none) := by
  constructor
  · intro h
    simp only [blockSplit]
    rw [if_pos]
    rcases h with h | h
    · exact Or.inl h
    · exact Or.inr (Or.inl h)
  · intro h
    simp only [splitJianpuNote, hn]
    rw [if_pos]
    rcases h with h | h
    · exact Or.inl h
    · exact Or.inr (Or.inl h)

/-- C9 witness: a one-note arena, a block from 0 to 1 and the outside split
point 5. -/
theorem split_out_of_range_noop_witness :
    (([⟨0, 1, 60, 127, 1, 0, 0, none, none⟩] : Arena).get? 0 =
        some ⟨0, 1, 60, 127, 1, 0, 0, none, none⟩) ∧
    blockSplit { measuresInfo := [] } [⟨0, 1, 60, 127, 1, 0, 0, none, none⟩]
      { start := 0, length := 1 } 5 = none ∧
    splitJianpuNote [⟨0, 1, 60, 127, 1, 0, 0, none, none⟩] 0 5 = none := by
  have hn : ([⟨0, 1, 60, 127, 1, 0, 0, none, none⟩] : Arena).get? 0 =
      some ⟨0, 1, 60, 127, 1, 0, 0, none, none⟩ := rfl
  have H := split_out_of_range_noop { measuresInfo := [] }
    [⟨0, 1, 60, 127, 1, 0, 0, none, none⟩] { start := 0, length := 1 } 0
    ⟨0, 1, 60, 127, 1, 0, 0, none, none⟩ 5 hn
  exact ⟨hn, H.1 (Or.inr (by norm_num)), H.2 (Or.inr (by norm_num))⟩

/-- C10: whenever splitJianpuNote succeeds, the continuation fragment it
appends carries accidental 0 regardless of the accidental of the note being
split, while its pitch, intensity, jianpuNumber and octaveDot are copied from
that note unchanged and its start is the split point. -/
theorem split_fragment_fields (a : Arena) (i : ℕ) (q : ℚ) (n : JNote)
    (a' : Arena) (m : ℕ) (hn : a.get? i = some n)
    (h : splitJianpuNote a i q = some (a', m)) :
    ∃ frag, a'.get? m = some frag ∧ frag.accidental = 0 ∧
      frag.pitch = n.pitch ∧ frag.intensity = n.intensity ∧
      frag.jianpuNumber = n.jianpuNumber ∧ frag.octaveDot = n.octaveDot ∧
      frag.start = q := by
  have hi : i < a.length := by
    rcases List.get?_eq_some.mp hn with ⟨hlt, _⟩
    exact hlt
  obtain ⟨ns, nl, np, nin, nnum, nod, nac, ntf, ntt⟩ := n
  rcases ntt with _ | j
  · simp only [splitJianpuNote, hn] at h
    split_ifs at h with hg
    obtain ⟨ha, hm⟩ := h
    refine ⟨⟨q, ns + nl - q, np, nin, nnum, nod, 0, some i, none⟩, ?_,
      rfl, rfl, rfl, rfl, rfl, rfl⟩
    rw [List.get?_append_right (by simp)]
    simp
  · simp only [splitJianpuNote, hn] at h
    split_ifs at h with hg
    obtain ⟨ha, hm⟩ := h
    have h1 : ((a.set i (⟨ns, q - ns, np, nin, nnum, nod, nac, ntf, some a.length⟩ : JNote)) ++
        [(⟨q, ns + nl - q, np, nin, nnum, nod, 0, some i, some j⟩ : JNote)]).get? a.length =
        some (⟨q, ns + nl - q, np, nin, nnum, nod, 0, some i, some j⟩ : JNote) := by
      rw [List.get?_append_right (by simp)]
      simp
    split
    · rename_i nj hnj
      by_cases hje : j = a.length
      · subst hje
        rw [h1] at hnj
        have hnj2 : nj = (⟨q, ns + nl - q, np, nin, nnum, nod, 0, some i, some a.length⟩ : JNote) :=
          (Option.some_inj.mp hnj).symm
        refine ⟨{ nj with tiedFrom := some a.length }, ?_,
          by rw [hnj2], by rw [hnj2], by rw [hnj2], by rw [hnj2], by rw [hnj2], by rw [hnj2]⟩
        rw [List.get?_set_eq, h1]
        rfl
      · refine ⟨⟨q, ns + nl - q, np, nin, nnum, nod, 0, some i, some j⟩, ?_,
          rfl, rfl, rfl, rfl, rfl, rfl⟩
        rw [List.get?_set_ne _ _ hje]
        exact h1
    · rename_i hnone
      exact ⟨⟨q, ns + nl - q, np, nin, nnum, nod, 0, some i, some j⟩, h1,
        rfl, rfl, rfl, rfl, rfl, rfl⟩


/-- C10 witness: splitting a note carrying accidental 2 at its midpoint; the
fragment carries accidental 0 and the copied fields. -/
theorem split_fragment_fields_witness :
    (([⟨0, 1, 60, 127, 5, 1, 2, none, none⟩] : Arena).get? 0 =
        some ⟨0, 1, 60, 127, 5, 1, 2, none, none⟩) ∧
    splitJianpuNote [⟨0, 1, 60, 127, 5, 1, 2, none, none⟩] 0 (1/2) =
      some ([⟨0, 1/2, 60, 127, 5, 1, 2, none, some 1⟩,
             ⟨1/2, 1/2, 60, 127, 5, 1, 0, some 0, none⟩], 1) ∧
    ∃ frag, ([⟨0, 1/2, 60, 127, 5, 1, 2, none, some 1⟩,
              ⟨1/2, 1/2, 60, 127, 5, 1, 0, some 0, none⟩] : Arena).get? 1 = some frag ∧
      frag.accidental = 0 ∧ frag.pitch = 60 ∧ frag.intensity = 127 ∧
      frag.jianpuNumber = 5 ∧ frag.octaveDot = 1 ∧ frag.start = 1/2 := by
  have hn : ([⟨0, 1, 60, 127, 5, 1, 2, none, none⟩] : Arena).get? 0 =
      some ⟨0, 1, 60, 127, 5, 1, 2, none, none⟩ := rfl
  have hs : splitJianpuNote [⟨0, 1, 60, 127, 5, 1, 2, none, none⟩] 0 (1/2) =
      some ([⟨0, 1/2, 60, 127, 5, 1, 2, none, some 1⟩,
             ⟨1/2, 1/2, 60, 127, 5, 1, 0, some 0, none⟩], 1) := by
    norm_num [splitJianpuNote, isSafeZero, epsTol, abs_lt, le_abs]
  exact ⟨hn, hs, split_fragment_fields _ 0 (1/2) _ _ 1 hn hs⟩

/-- C2 counterexample: the claim that every strictly interior split point
succeeds fails on the code.  q = 1 - 1e-7 lies strictly inside the note from
0 to 1, yet splitJianpuNote returns the no-op signal, because the remainder
1e-7 is below the 1e-6 tolerance. -/
theorem split_interior_point_rejected :
    ((0:ℚ) < 1 - 1/10000000 ∧ (1 - 1/10000000 : ℚ) < 0 + 1) ∧
    splitJianpuNote [⟨0, 1, 60, 127, 1, 0, 0, none, none⟩] 0 (1 - 1/10000000) = none := by
  constructor
  · norm_num
  · norm_num [splitJianpuNote, isSafeZero, epsTol, abs_lt, le_abs]

/-- C2 amended: whenever splitJianpuNote succeeds on a note n at point q (on
an arena whose forward-tie index of n is in range), it requires q strictly
inside the note span, appends exactly one note, shortens n to q - n.start with
its tiedTo pointing at the new fragment, starts the fragment at q tiedFrom n,
keeps the two lengths summing to the original length - the local step of the
tie-chain length invariant - and relinks any pre-existing forward tie target
of n to be tiedFrom the fragment. -/
theorem splitJianpuNote_tie_sum (a : Arena) (i : ℕ) (q : ℚ) (n : JNote)
    (a' : Arena) (m : ℕ) (hn : a.get? i = some n)
    (hwf : ∀ j, n.tiedTo = some j → j < a.length)
    (h : splitJianpuNote a i q = some (a', m)) :
    m = a.length ∧ a'.length = a.length + 1 ∧ n.start < q ∧ q < n.start + n.length ∧
    ∃ modN frag, a'.get? i = some modN ∧ a'.get? m = some frag ∧
      modN.length + frag.length = n.length ∧
      modN.length = q - n.start ∧ frag.start = q ∧
      modN.tiedTo = some m ∧ frag.tiedFrom = some i ∧
      ∀ j2, n.tiedTo = some j2 → ∃ nj, a'.get? j2 = some nj ∧ nj.tiedFrom = some m := by
  have hi : i < a.length := by
    rcases List.get?_eq_some.mp hn with ⟨hlt, _⟩
    exact hlt
  obtain ⟨ns, nl, np, nin, nnum, nod, nac, ntf, ntt⟩ := n
  rcases ntt with _ | j
  · simp only [splitJianpuNote, hn] at h
    split_ifs at h with hg
    push_neg at hg
    obtain ⟨hg1, hg2, hg3⟩ := hg
    obtain ⟨ha, hm⟩ := h
    have h1 : ((a.set i (⟨ns, q - ns, np, nin, nnum, nod, nac, ntf, some a.length⟩ : JNote)) ++
        [(⟨q, ns + nl - q, np, nin, nnum, nod, 0, some i, none⟩ : JNote)]).get? a.length =
        some (⟨q, ns + nl - q, np, nin, nnum, nod, 0, some i, none⟩ : JNote) := by
      rw [List.get?_append_right (by simp)]
      simp
    have h0 : ((a.set i (⟨ns, q - ns, np, nin, nnum, nod, nac, ntf, some a.length⟩ : JNote)) ++
        [(⟨q, ns + nl - q, np, nin, nnum, nod, 0, some i, none⟩ : JNote)]).get? i =
        some (⟨ns, q - ns, np, nin, nnum, nod, nac, ntf, some a.length⟩ : JNote) := by
      rw [List.get?_append (by simpa using hi)]
      rw [List.get?_set_eq, hn]
      rfl
    refine ⟨rfl, by simp, hg1, hg2,
      ⟨ns, q - ns, np, nin, nnum, nod, nac, ntf, some a.length⟩,
      ⟨q, ns + nl - q, np, nin, nnum, nod, 0, some i, none⟩, h0, h1,
      by show q - ns + (ns + nl - q) = nl; ring, rfl, rfl, rfl, rfl, ?_⟩
    intro j2 hj2
    simp at hj2
  · have hjlen : j < a.length := hwf j rfl
    have hjne : j ≠ a.length := by omega
    simp only [splitJianpuNote, hn] at h
    split_ifs at h with hg
    push_neg at hg
    obtain ⟨hg1, hg2, hg3⟩ := hg
    obtain ⟨ha, hm⟩ := h
    have h1 : ((a.set i (⟨ns, q - ns, np, nin, nnum, nod, nac, ntf, some a.length⟩ : JNote)) ++
        [(⟨q, ns + nl - q, np, nin, nnum, nod, 0, some i, some j⟩ : JNote)]).get? a.length =
        some (⟨q, ns + nl - q, np, nin, nnum, nod, 0, some i, some j⟩ : JNote) := by
      rw [List.get?_append_right (by simp)]
      simp
    have h0 : ((a.set i (⟨ns, q - ns, np, nin, nnum, nod, nac, ntf, some a.length⟩ : JNote)) ++
        [(⟨q, ns + nl - q, np, nin, nnum, nod, 0, some i, some j⟩ : JNote)]).get? i =
        some (⟨ns, q - ns, np, nin, nnum, nod, nac, ntf, some a.length⟩ : JNote) := by
      rw [List.get?_append (by simpa using hi)]
      rw [List.get?_set_eq, hn]
      rfl
    refine ⟨rfl, ?_, hg1, hg2, ?_⟩
    · split
      · simp
      · simp
    split
    · rename_i nj hnj
      have hset : (((a.set i (⟨ns, q - ns, np, nin, nnum, nod, nac, ntf, some a.length⟩ : JNote)) ++
          [(⟨q, ns + nl - q, np, nin, nnum, nod, 0, some i, some j⟩ : JNote)]).set j
            { nj with tiedFrom := some a.length }).get? j =
          some { nj with tiedFrom := some a.length } := by
        rw [List.get?_set_eq, hnj]
        rfl
      have hm1 : (((a.set i (⟨ns, q - ns, np, nin, nnum, nod, nac, ntf, some a.length⟩ : JNote)) ++
          [(⟨q, ns + nl - q, np, nin, nnum, nod, 0, some i, some j⟩ : JNote)]).set j
            { nj with tiedFrom := some a.length }).get? a.length =
          some (⟨q, ns + nl - q, np, nin, nnum, nod, 0, some i, some j⟩ : JNote) := by
        rw [List.get?_set_ne _ _ hjne]
        exact h1
      by_cases hji : j = i
      · subst hji
        rw [h0] at hnj
        have hnj2 : nj = (⟨ns, q - ns, np, nin, nnum, nod, nac, ntf, some a.length⟩ : JNote) :=
          (Option.some_inj.mp hnj).symm
        refine ⟨{ nj with tiedFrom := some a.length },
          ⟨q, ns + nl - q, np, nin, nnum, nod, 0, some j, some j⟩,
          hset, hm1, ?_, ?_, rfl, ?_, rfl, ?_⟩
        · rw [hnj2]
          show q - ns + (ns + nl - q) = nl
          ring
        · rw [hnj2]
        · rw [hnj2]
        · intro j2 hj2
          have hj2j : j2 = j := by
            have := Option.some_inj.mp hj2
            omega
          subst hj2j
          exact ⟨{ nj with tiedFrom := some a.length }, hset, rfl⟩
      · have hii : (((a.set i (⟨ns, q - ns, np, nin, nnum, nod, nac, ntf, some a.length⟩ : JNote)) ++
            [(⟨q, ns + nl - q, np, nin, nnum, nod, 0, some i, some j⟩ : JNote)]).set j
              { nj with tiedFrom := some a.length }).get? i =
            some (⟨ns, q - ns, np, nin, nnum, nod, nac, ntf, some a.length⟩ : JNote) := by
          rw [List.get?_set_ne _ _ hji]
          exact h0
        refine ⟨⟨ns, q - ns, np, nin, nnum, nod, nac, ntf, some a.length⟩,
          ⟨q, ns + nl - q, np, nin, nnum, nod, 0, some i, some j⟩,
          hii, hm1, by show q - ns + (ns + nl - q) = nl; ring, rfl, rfl, rfl, rfl, ?_⟩
        intro j2 hj2
        have hj2j : j2 = j := by
          have := Option.some_inj.mp hj2
          omega
        subst hj2j
        exact ⟨{ nj with tiedFrom := some a.length }, hset, rfl⟩
    · rename_i hnone
      rw [List.get?_eq_none] at hnone
      simp at hnone
      omega

/-- C2 amended witness: splitting the quarter-span note from 0 to 1 at 1/2. -/
theorem splitJianpuNote_tie_sum_witness :
    (([⟨0, 1, 60, 127, 1, 0, 0, none, none⟩] : Arena).get? 0 =
        some ⟨0, 1, 60, 127, 1, 0, 0, none, none⟩) ∧
    (∀ j, (⟨0, 1, 60, 127, 1, 0, 0, none, none⟩ : JNote).tiedTo = some j →
        j < ([⟨0, 1, 60, 127, 1, 0, 0, none, none⟩] : Arena).length) ∧
    (splitJianpuNote [⟨0, 1, 60, 127, 1, 0, 0, none, none⟩] 0 (1/2) =
      some ([⟨0, 1/2, 60, 127, 1, 0, 0, none, some 1⟩,
             ⟨1/2, 1/2, 60, 127, 1, 0, 0, some 0, none⟩], 1)) ∧
    (1 = ([⟨0, 1, 60, 127, 1, 0, 0, none, none⟩] : Arena).length ∧
     ([⟨0, 1/2, 60, 127, 1, 0, 0, none, some 1⟩,
       ⟨1/2, 1/2, 60, 127, 1, 0, 0, some 0, none⟩] : Arena).length =
        ([⟨0, 1, 60, 127, 1, 0, 0, none, none⟩] : Arena).length + 1 ∧
     (⟨0, 1, 60, 127, 1, 0, 0, none, none⟩ : JNote).start < 1/2 ∧
     (1/2 : ℚ) < (⟨0, 1, 60, 127, 1, 0, 0, none, none⟩ : JNote).start +
        (⟨0, 1, 60, 127, 1, 0, 0, none, none⟩ : JNote).length ∧
     ∃ modN frag,
       ([⟨0, 1/2, 60, 127, 1, 0, 0, none, some 1⟩,
         ⟨1/2, 1/2, 60, 127, 1, 0, 0, some 0, none⟩] : Arena).get? 0 = some modN ∧
       ([⟨0, 1/2, 60, 127, 1, 0, 0, none, some 1⟩,
         ⟨1/2, 1/2, 60, 127, 1, 0, 0, some 0, none⟩] : Arena).get? 1 = some frag ∧
       modN.length + frag.length = (⟨0, 1, 60, 127, 1, 0, 0, none, none⟩ : JNote).length ∧
       modN.length = 1/2 - (⟨0, 1, 60, 127, 1, 0, 0, none, none⟩ : JNote).start ∧
       frag.start = 1/2 ∧ modN.tiedTo = some 1 ∧ frag.tiedFrom = some 0 ∧
       ∀ j, (⟨0, 1, 60, 127, 1, 0, 0, none, none⟩ : JNote).tiedTo = some j →
         ∃ nj, ([⟨0, 1/2, 60, 127, 1, 0, 0, none, some 1⟩,
                 ⟨1/2, 1/2, 60, 127, 1, 0, 0, some 0, none⟩] : Arena).get? j = some nj ∧
           nj.tiedFrom = some 1) := by
  have hn : ([⟨0, 1, 60, 127, 1, 0, 0, none, none⟩] : Arena).get? 0 =
      some ⟨0, 1, 60, 127, 1, 0, 0, none, none⟩ := rfl
  have hwf : ∀ j, (⟨0, 1, 60, 127, 1, 0, 0, none, none⟩ : JNote).tiedTo = some j →
      j < ([⟨0, 1, 60, 127, 1, 0, 0, none, none⟩] : Arena).length := by
    intro j hj
    simp at hj
  have hs : splitJianpuNote [⟨0, 1, 60, 127, 1, 0, 0, none, none⟩] 0 (1/2) =
      some ([⟨0, 1/2, 60, 127, 1, 0, 0, none, some 1⟩,
             ⟨1/2, 1/2, 60, 127, 1, 0, 0, some 0, none⟩], 1) := by
    norm_num [splitJianpuNote, isSafeZero, epsTol, abs_lt, le_abs]
  exact ⟨hn, hwf, hs, splitJianpuNote_tie_sum _ 0 (1/2) _ _ 1 hn hwf hs⟩

def c3info : JianpuInfo :=
  { notes := [⟨0, 3, 67, 127⟩, ⟨15/4, 1/4, 67, 127⟩],
    tempos := [tempo60], keySignatures := [keyC], timeSignatures := [ts44] }
def c3q : ℚ := 4000001/1000000
def c3mi : MeasuresCtx := { measuresInfo := buildChunks c3info c3q }

theorem c3steps : numStepsOf c3q = 65 := by
  have h : (⌈(4000001/62500 : ℚ)⌉ : ℤ) = 65 := by
    rw [Int.ceil_eq_iff]
    norm_num
  norm_num [numStepsOf, c3q, MIN_RESOLUTION]
  rw [h]
  rfl

theorem c3mn (t : ℚ) (h0 : 0 ≤ t) (hin : jsFloor (t / MIN_RESOLUTION) ≤ 64) :
    measureNumberAtQ c3mi t = 1 + t / 4 + 1/1000000000 := by
  have h65 : numStepsOf c3q = 65 := c3steps
  exact measureNumberAtQ_default c3info rfl rfl rfl c3q (by rw [h65]; omega) t h0
    (by rw [h65]; exact_mod_cast hin)

def c3note0 : JNote := ⟨0, 3, 67, 127, 5, 0, 0, none, none⟩
def c3note1 : JNote := ⟨15/4, 1/4, 67, 127, 5, 0, 0, none, none⟩
def c3blkA : JianpuBlock := { start := 0, length := 3, notes := [0], measureNumber := 1 + 1/1000000000 }
def c3rest3 : JianpuBlock := { start := 3, length := 3/4, notes := [], measureNumber := 7/4 + 1/1000000000 }
def c3blkB : JianpuBlock := { start := 15/4, length := 1/4, notes := [1], measureNumber := 31/16 + 1/1000000000 }

theorem c3map67 : mapMidiToJianpu 67 0 = ⟨5, 0, 0⟩ := by with_unfolding_all decide

theorem c3inrange : 1 ≤ numStepsOf c3q := by rw [c3steps]; omega

theorem c3pass1 :
    ([⟨0, 3, 67, 127⟩, ⟨15/4, 1/4, 67, 127⟩] : List NoteInfo).foldl (pass1Step c3mi)
      ⟨[], [], 0⟩ =
    ⟨[c3note0, c3note1], [(0, c3blkA), (3, c3rest3), (15/4, c3blkB)], 4⟩ := by
  have hk0 : keySignatureAtQ c3mi 0 = 0 :=
    keySignatureAtQ_default c3info rfl rfl rfl c3q c3inrange 0
  have hk1 : keySignatureAtQ c3mi (15/4) = 0 :=
    keySignatureAtQ_default c3info rfl rfl rfl c3q c3inrange (15/4)
  have hm0 : measureNumberAtQ c3mi 0 = 1 + 1/1000000000 := by
    rw [c3mn 0 (by norm_num) (by norm_num [jsFloor_eq_floor, MIN_RESOLUTION])]; ring
  have hm3 : measureNumberAtQ c3mi 3 = 7/4 + 1/1000000000 := by
    rw [c3mn 3 (by norm_num) (by norm_num [jsFloor_eq_floor, MIN_RESOLUTION])]; ring
  have hm15 : measureNumberAtQ c3mi (15/4) = 31/16 + 1/1000000000 := by
    rw [c3mn (15/4) (by norm_num) (by norm_num [jsFloor_eq_floor, MIN_RESOLUTION])]; ring
  norm_num [pass1Step, mapSet, mapGet, addNote, createJianpuNote, c3map67,
    hk0, hk1, hm0, hm3, hm15, isSafeZero, epsTol, List.findIdx?,
    c3note0, c3note1, c3blkA, c3rest3, c3blkB]

def c3q1 : ℚ := 249999999/250000000

def c3note0a : JNote := ⟨0, c3q1, 67, 127, 5, 0, 0, none, some 2⟩
def c3f1 : JNote := ⟨c3q1, 500000001/250000000, 67, 127, 5, 0, 0, some 0, none⟩
def c3blkAh : JianpuBlock :=
  { start := 0, length := c3q1, notes := [0], measureNumber := 1 + 1/1000000000,
    beatBegin := some true, beatEnd := some true,
    isTieStart := some false, isTieEnd := some true }
def c3blkB2 : JianpuBlock :=
  { start := c3q1, length := 500000001/250000000, notes := [2], measureNumber := 5/4,
    isTieStart := some true, isTieEnd := some false }

theorem c3s1 :
    splitToBeat c3mi [c3note0, c3note1] c3blkA =
      ([c3note0a, c3note1, c3f1], c3blkAh, some c3blkB2) := by
  have hts0 : timeSignatureAtQ c3mi 0 = some ts44 :=
    timeSignatureAtQ_default c3info rfl rfl rfl c3q c3inrange 0
  have hml0 : measureLengthAtQ c3mi 0 = 4 :=
    measureLengthAtQ_default c3info rfl rfl rfl c3q c3inrange 0
  have hm0 : measureNumberAtQ c3mi 0 = 1 + 1/1000000000 := by
    rw [c3mn 0 (by norm_num) (by norm_num [jsFloor_eq_floor, MIN_RESOLUTION])]; ring
  have hmq1 : measureNumberAtQ c3mi (249999999/250000000) = 5/4 := by
    rw [c3mn (249999999/250000000) (by norm_num) (by norm_num [jsFloor_eq_floor, MIN_RESOLUTION])]
    norm_num
  norm_num [splitToBeat, blockSplit, splitJianpuNote, addNote, isTruthy,
    hts0, hml0, hm0, hmq1, isSafeZero, epsTol, abs_lt, le_abs,
    jsFloor_eq_floor, jsRound_eq_floor, ts44, List.findIdx?,
    c3note0, c3note1, c3blkA, c3note0a, c3f1, c3blkAh, c3blkB2, c3q1]


def c3q2 : ℚ := 499999999/250000000
def c3f1a : JNote := ⟨c3q1, 1, 67, 127, 5, 0, 0, some 0, some 3⟩
def c3f2 : JNote := ⟨c3q2, 250000001/250000000, 67, 127, 5, 0, 0, some 2, none⟩

def c3blkB2h : JianpuBlock :=
  { start := c3q1, length := 1, notes := [2], measureNumber := 5/4,
    beatBegin := some true, beatEnd := some true,
    isTieStart := some true, isTieEnd := some true }

def c3blkB2t : JianpuBlock :=
  { start := c3q2, length := 250000001/250000000, notes := [3], measureNumber := 3/2,
    isTieStart := some true, isTieEnd := some false }

theorem c3s2 :
    splitToBeat c3mi [c3note0a, c3note1, c3f1] c3blkB2 =
      ([c3note0a, c3note1, c3f1a, c3f2], c3blkB2h, some c3blkB2t) := by
  have hts : timeSignatureAtQ c3mi (249999999/250000000) = some ts44 :=
    timeSignatureAtQ_default c3info rfl rfl rfl c3q c3inrange (249999999/250000000)
  have hml : measureLengthAtQ c3mi (249999999/250000000) = 4 :=
    measureLengthAtQ_default c3info rfl rfl rfl c3q c3inrange (249999999/250000000)
  have hmq1 : measureNumberAtQ c3mi (249999999/250000000) = 5/4 := by
    rw [c3mn (249999999/250000000) (by norm_num) (by norm_num [jsFloor_eq_floor, MIN_RESOLUTION])]
    norm_num
  have hmq2 : measureNumberAtQ c3mi (499999999/250000000) = 3/2 := by
    rw [c3mn (499999999/250000000) (by norm_num) (by norm_num [jsFloor_eq_floor, MIN_RESOLUTION])]
    norm_num
  norm_num [splitToBeat, blockSplit, splitJianpuNote, addNote, isTruthy,
    hts, hml, hmq1, hmq2, isSafeZero, epsTol, abs_lt, le_abs,
    jsFloor_eq_floor, jsRound_eq_floor, ts44, List.findIdx?,
    c3note0a, c3note1, c3f1, c3f1a, c3f2, c3blkB2, c3blkB2h, c3blkB2t, c3q1, c3q2]

def c3blkB2tb : JianpuBlock :=
  { start := c3q2, length := 250000001/250000000, notes := [3], measureNumber := 3/2,
    beatBegin := some true, beatEnd := some true,
    isTieStart := some true, isTieEnd := some false }

def c3blkB2ts : JianpuBlock :=
  { start := c3q2, length := 1, notes := [3], measureNumber := 3/2,
    beatBegin := some true, beatEnd := some true,
    isTieStart := some true, isTieEnd := some false }

theorem c3s3 :
    splitToBeat c3mi [c3note0a, c3note1, c3f1a, c3f2] c3blkB2t =
      ([c3note0a, c3note1, c3f1a, c3f2], c3blkB2tb, none) := by
  have hts : timeSignatureAtQ c3mi (499999999/250000000) = some ts44 :=
    timeSignatureAtQ_default c3info rfl rfl rfl c3q c3inrange (499999999/250000000)
  have hml : measureLengthAtQ c3mi (499999999/250000000) = 4 :=
    measureLengthAtQ_default c3info rfl rfl rfl c3q c3inrange (499999999/250000000)
  have hmq2 : measureNumberAtQ c3mi (499999999/250000000) = 3/2 := by
    rw [c3mn (499999999/250000000) (by norm_num) (by norm_num [jsFloor_eq_floor, MIN_RESOLUTION])]
    norm_num
  norm_num [splitToBeat, blockSplit, splitJianpuNote, addNote, isTruthy,
    hts, hml, hmq2, isSafeZero, epsTol, abs_lt, le_abs,
    jsFloor_eq_floor, jsRound_eq_floor, ts44,
    c3note0a, c3note1, c3f1a, c3f2, c3blkB2t, c3blkB2tb, c3q1, c3q2]

theorem c3sym3 :
    splitToStandardSymbol c3mi [c3note0a, c3note1, c3f1a, c3f2] c3blkB2tb =
      ([c3note0a, c3note1, c3f1a, c3f2], c3blkB2ts, none) := by
  have hadr : c3mi.allowDottedRests = true := rfl
  norm_num [splitToStandardSymbol, hadr, isSafeZero, epsTol, abs_lt, le_abs,
    MIN_RESOLUTION, c3blkB2tb, c3blkB2ts, c3q2]

def c3rest3b : JianpuBlock :=
  { start := 3, length := 3/4, notes := [], measureNumber := 7/4 + 1/1000000000,
    beatBegin := some true, beatEnd := some false,
    isTieStart := some false, isTieEnd := some false }

theorem c3s4 :
    splitToBeat c3mi [c3note0a, c3note1, c3f1a, c3f2] c3rest3 =
      ([c3note0a, c3note1, c3f1a, c3f2], c3rest3b, none) := by
  have hts : timeSignatureAtQ c3mi 3 = some ts44 :=
    timeSignatureAtQ_default c3info rfl rfl rfl c3q c3inrange 3
  have hml : measureLengthAtQ c3mi 3 = 4 :=
    measureLengthAtQ_default c3info rfl rfl rfl c3q c3inrange 3
  have hm3 : measureNumberAtQ c3mi 3 = 7/4 + 1/1000000000 := by
    rw [c3mn 3 (by norm_num) (by norm_num [jsFloor_eq_floor, MIN_RESOLUTION])]
    ring
  norm_num [splitToBeat, blockSplit, splitJianpuNote, addNote, isTruthy,
    hts, hml, hm3, isSafeZero, epsTol, abs_lt, le_abs,
    jsFloor_eq_floor, jsRound_eq_floor, ts44,
    c3note0a, c3note1, c3f1a, c3f2, c3rest3, c3rest3b]

theorem c3sym4 :
    splitToStandardSymbol c3mi [c3note0a, c3note1, c3f1a, c3f2] c3rest3b =
      ([c3note0a, c3note1, c3f1a, c3f2], c3rest3b, none) := by
  have hadr : c3mi.allowDottedRests = true := rfl
  norm_num [splitToStandardSymbol, hadr, isSafeZero, epsTol, abs_lt, le_abs,
    MIN_RESOLUTION, c3rest3b]

def c3blkBb2 : JianpuBlock :=
  { start := 15/4, length := 1/4, notes := [1], measureNumber := 31/16 + 1/1000000000,
    beatBegin := some false, beatEnd := some true,
    isTieStart := some false, isTieEnd := some false }

theorem c3s5 :
    splitToBeat c3mi [c3note0a, c3note1, c3f1a, c3f2] c3blkB =
      ([c3note0a, c3note1, c3f1a, c3f2], c3blkBb2, none) := by
  have hts : timeSignatureAtQ c3mi (15/4) = some ts44 :=
    timeSignatureAtQ_default c3info rfl rfl rfl c3q c3inrange (15/4)
  have hml : measureLengthAtQ c3mi (15/4) = 4 :=
    measureLengthAtQ_default c3info rfl rfl rfl c3q c3inrange (15/4)
  have hm15 : measureNumberAtQ c3mi (15/4) = 31/16 + 1/1000000000 := by
    rw [c3mn (15/4) (by norm_num) (by norm_num [jsFloor_eq_floor, MIN_RESOLUTION])]
    ring
  norm_num [splitToBeat, blockSplit, splitJianpuNote, addNote, isTruthy,
    hts, hml, hm15, isSafeZero, epsTol, abs_lt, le_abs,
    jsFloor_eq_floor, jsRound_eq_floor, ts44,
    c3note0a, c3note1, c3f1a, c3f2, c3blkB, c3blkBb2]

theorem c3sym5 :
    splitToStandardSymbol c3mi [c3note0a, c3note1, c3f1a, c3f2] c3blkBb2 =
      ([c3note0a, c3note1, c3f1a, c3f2], c3blkBb2, none) := by
  have hadr : c3mi.allowDottedRests = true := rfl
  norm_num [splitToStandardSymbol, hadr, isSafeZero, epsTol, abs_lt, le_abs,
    MIN_RESOLUTION, c3blkBb2]

theorem c3queue (f : ℕ) :
    processQueue c3mi (f + 1 + 1 + 1 + 1 + 1) [c3note0, c3note1] [] [c3blkA, c3rest3, c3blkB] =
      ([c3note0a, c3note1, c3f1a, c3f2],
       [(0, c3blkAh), (249999999/250000000, c3blkB2h), (499999999/250000000, c3blkB2ts),
        (3, c3rest3b), (15/4, c3blkBb2)]) := by
  have hsA : c3blkAh.start = 0 := rfl
  have hsB2 : c3blkB2h.start = 249999999/250000000 := rfl
  have hsB2t : c3blkB2ts.start = 499999999/250000000 := rfl
  have hsR : c3rest3b.start = 3 := rfl
  have hsB : c3blkBb2.start = 15/4 := rfl
  rcases f with _ | f2 <;>
  · rw [processQueue, c3s1]
    simp only []
    norm_num [mergeToMap, mapGet, mapSet, hsA]
    rw [processQueue, c3s2]
    simp only []
    norm_num [mergeToMap, mapGet, mapSet, hsA, hsB2]
    rw [processQueue, c3s3]
    simp only []
    rw [symSplitLoop, c3sym3]
    norm_num [mergeToMap, mapGet, mapSet, hsA, hsB2, hsB2t]
    rw [processQueue, c3s4]
    simp only []
    rw [symSplitLoop, c3sym4]
    norm_num [mergeToMap, mapGet, mapSet, hsA, hsB2, hsB2t, hsR]
    rw [processQueue, c3s5]
    simp only []
    rw [symSplitLoop, c3sym5]
    norm_num [mergeToMap, mapGet, mapSet, hsA, hsB2, hsB2t, hsR, hsB]
    rw [processQueue]

def c3info0 : JianpuInfo := { notes := [⟨0, 3, 67, 127⟩, ⟨15/4, 1/4, 67, 127⟩] }

theorem c3normalize : normalizeInfo c3info0 none = (c3info, c3q) := by
  norm_num [normalizeInfo, sortBy, insertSorted, c3info0, c3info, c3q,
    DEFAULT_TEMPO, DEFAULT_KEY_SIGNATURE, DEFAULT_TIME_SIGNATURE,
    tempo60, keyC, ts44, epsTol]

def c3blkAF : JianpuBlock :=
  { start := 0, length := c3q1, notes := [0], measureNumber := 1 + 1/1000000000,
    durationLines := some 0, augmentationDash := some false,
    beatBegin := some true, beatEnd := some true,
    isTieStart := some false, isTieEnd := some true }

theorem c3r1 :
    calculateRenderProperties c3mi [c3note0a, c3note1, c3f1a, c3f2] c3blkAh = c3blkAF := by
  have hts : timeSignatureAtQ c3mi 0 = some ts44 :=
    timeSignatureAtQ_default c3info rfl rfl rfl c3q c3inrange 0
  have hadr : c3mi.allowDottedRests = true := rfl
  norm_num [calculateRenderProperties, hts, hadr, isSafeZero, epsTol, abs_lt, le_abs,
    jsFmodOne, jsTrunc, jsFloor_eq_floor, ts44,
    c3note0a, c3note1, c3f1a, c3f2, c3blkAh, c3blkAF, c3q1]

def c3blkB2F : JianpuBlock :=
  { start := c3q1, length := 1, notes := [2], measureNumber := 5/4,
    durationLines := some 0, augmentationDash := some true,
    beatBegin := some true, beatEnd := some true,
    isTieStart := some true, isTieEnd := some true }

theorem c3r2 :
    calculateRenderProperties c3mi [c3note0a, c3note1, c3f1a, c3f2] c3blkB2h = c3blkB2F := by
  have hts : timeSignatureAtQ c3mi (249999999/250000000) = some ts44 :=
    timeSignatureAtQ_default c3info rfl rfl rfl c3q c3inrange (249999999/250000000)
  have hmq1 : measureNumberAtQ c3mi (249999999/250000000) = 5/4 := by
    rw [c3mn (249999999/250000000) (by norm_num) (by norm_num [jsFloor_eq_floor, MIN_RESOLUTION])]
    norm_num
  have hmq2 : measureNumberAtQ c3mi (499999999/250000000) = 3/2 := by
    rw [c3mn (499999999/250000000) (by norm_num) (by norm_num [jsFloor_eq_floor, MIN_RESOLUTION])]
    norm_num
  have hadr : c3mi.allowDottedRests = true := rfl
  norm_num [calculateRenderProperties, hts, hmq1, hmq2, hadr, isSafeZero, epsTol,
    abs_lt, le_abs, jsFmodOne, jsTrunc, jsFloor_eq_floor, ts44,
    c3note0a, c3note1, c3f1a, c3f2, c3blkB2h, c3blkB2F, c3q1, c3q2]

def c3blkB2tF : JianpuBlock :=
  { start := c3q2, length := 1, notes := [3], measureNumber := 3/2,
    durationLines := some 0, augmentationDash := some true,
    beatBegin := some true, beatEnd := some true,
    isTieStart := some true, isTieEnd := some false }

theorem c3r3 :
    calculateRenderProperties c3mi [c3note0a, c3note1, c3f1a, c3f2] c3blkB2ts = c3blkB2tF := by
  have hts : timeSignatureAtQ c3mi (499999999/250000000) = some ts44 :=
    timeSignatureAtQ_default c3info rfl rfl rfl c3q c3inrange (499999999/250000000)
  have hadr : c3mi.allowDottedRests = true := rfl
  norm_num [calculateRenderProperties, hts, hadr, isSafeZero, epsTol, abs_lt, le_abs,
    jsFmodOne, jsTrunc, jsFloor_eq_floor, ts44,
    c3note0a, c3note1, c3f1a, c3f2, c3blkB2ts, c3blkB2tF, c3q1, c3q2]

def c3rest3F : JianpuBlock :=
  { start := 3, length := 3/4, notes := [], measureNumber := 7/4 + 1/1000000000,
    durationLines := some 1, augmentationDots := some 1,
    beatBegin := some true, beatEnd := some false,
    isTieStart := some false, isTieEnd := some false }

theorem c3r4 :
    calculateRenderProperties c3mi [c3note0a, c3note1, c3f1a, c3f2] c3rest3b = c3rest3F := by
  have hadr : c3mi.allowDottedRests = true := rfl
  norm_num [calculateRenderProperties, hadr, isSafeZero, epsTol, abs_lt, le_abs,
    jsFmodOne, jsTrunc, jsFloor_eq_floor,
    c3rest3b, c3rest3F]

def c3blkBF2 : JianpuBlock :=
  { start := 15/4, length := 1/4, notes := [1], measureNumber := 31/16 + 1/1000000000,
    durationLines := some 2, augmentationDash := some false,
    beatBegin := some false, beatEnd := some true,
    isTieStart := some false, isTieEnd := some false }

theorem c3r5 :
    calculateRenderProperties c3mi [c3note0a, c3note1, c3f1a, c3f2] c3blkBb2 = c3blkBF2 := by
  have hts : timeSignatureAtQ c3mi (15/4) = some ts44 :=
    timeSignatureAtQ_default c3info rfl rfl rfl c3q c3inrange (15/4)
  have hadr : c3mi.allowDottedRests = true := rfl
  norm_num [calculateRenderProperties, hts, hadr, isSafeZero, epsTol, abs_lt, le_abs,
    jsFmodOne, jsTrunc, jsFloor_eq_floor, ts44,
    c3note0a, c3note1, c3f1a, c3f2, c3blkBb2, c3blkBF2]

theorem c3model :
    buildJianpuModel c3info0 none =
      { arena := [c3note0a, c3note1, c3f1a, c3f2],
        measures := c3mi,
        jianpuBlockMap := [(0, c3blkAF), (249999999/250000000, c3blkB2F),
          (499999999/250000000, c3blkB2tF), (3, c3rest3F), (15/4, c3blkBF2)],
        lastQ := 4000001/1000000 } := by
  have hfuel : modelFuel = 999995 + 1 + 1 + 1 + 1 + 1 := rfl
  have hmi : ({ measuresInfo := buildChunks c3info c3q } : MeasuresCtx) = c3mi := rfl
  have hnotes : c3info.notes = ([⟨0, 3, 67, 127⟩, ⟨15/4, 1/4, 67, 127⟩] : List NoteInfo) := rfl
  have hsA0 : c3blkA.start = 0 := rfl
  have hsR0 : c3rest3.start = 3 := rfl
  have hsB0 : c3blkB.start = 15/4 := rfl
  simp only [buildJianpuModel, c3normalize, infoToBlocks, hnotes, hmi]
  rw [c3pass1]
  norm_num [sortBy, insertSorted, mapGet, mapSet, epsTol, c3q, hsA0, hsR0, hsB0,
    List.filterMap_cons, List.filterMap_nil]
  rw [hfuel, c3queue]
  norm_num [c3r1, c3r2, c3r3, c3r4, c3r5]

/-- C3 counterexample: the claim fails on the code.  On the claimed input the
block stored at time 0 has length 249999999/250000000 (not 3), no augmentation
dot and no augmentation dash: splitToBeat splits the 3-quarter note at every
beat boundary (the boundaries drifting by the 1e-9 bias of measureNumberAtQ),
so no dotted-half block is produced. -/
theorem dotted_half_block_not_produced :
    ∃ b, mapGet (buildJianpuModel c3info0 none).jianpuBlockMap 0 = some b ∧
      b.length = 249999999/250000000 ∧ b.length ≠ 3 ∧
      b.augmentationDots ≠ some 1 ∧ b.augmentationDash ≠ some true := by
  refine ⟨c3blkAF, ?_, by norm_num [c3blkAF, c3q1], by norm_num [c3blkAF, c3q1],
    by simp [c3blkAF], by simp [c3blkAF]⟩
  rw [c3model]
  norm_num [mapGet]

/-- C3 amended: on notes [start 0 length 3 pitch 67; start 3.75 length 0.25
pitch 67] under the default 4/4 signature, the build produces five blocks:
tied beat-long blocks at 0 (length 249999999/250000000, zero duration lines,
dash false), at 249999999/250000000 and at 499999999/250000000 (each length 1,
zero duration lines, dash true), a rest at 3 of length 3/4 rendered as a
dotted eighth rest (one duration line, one dot), and a sixteenth-note block at
15/4 of length 1/4 (two duration lines, dash false). -/
theorem beat_split_scenario_feature_map :
    (buildJianpuModel c3info0 none).jianpuBlockMap.map
        (fun e => (e.1, e.2.length, e.2.durationLines, e.2.augmentationDots, e.2.augmentationDash)) =
      [(0, 249999999/250000000, some 0, none, some false),
       (249999999/250000000, 1, some 0, none, some true),
       (499999999/250000000, 1, some 0, none, some true),
       (3, 3/4, some 1, some 1, none),
       (15/4, 1/4, some 2, none, some false)] := by
  rw [c3model]
  norm_num [c3blkAF, c3blkB2F, c3blkB2tF, c3rest3F, c3blkBF2, c3q1, c3q2]
